import Mathlib

/-!
# A shallow embedding of the Graph command-line client

The program (`main.go`, `graph.go`) is a terminal menu over four remote
operations.  Everything it does is an effect: it reads selections from
standard input, writes lines to standard output, sends requests to the remote
service and may panic.  The embedding makes these effects explicit:

* `State` carries the pending standard input, the text written so far and the
  list of requests issued so far;
* `Host` is the environment the program runs in: the process environment, the
  library constructors used at start-up and the remote service, each as a
  function the program can only call;
* `Prog α` is a state-passing computation ending in a value, a panic, or in
  the exhaustion of the fuel that bounds the `for` loops.

Pointers returned by the SDK getters are `Option`s; dereferencing `none`
panics, as the Go runtime does on a nil pointer.
-/

namespace GraphApp

/-! ## Data model -/

/-- A Go `error` value, represented by its message. -/
abbrev Error := String

/-- The `models.Userable` getters used by the program (`*string` each). -/
structure User where
  id : Option String
  displayName : Option String
  mail : Option String
  deriving DecidableEq, Repr

/-- The `models.UserCollectionResponseable` value of a list-users response. -/
structure UserCollectionResponse where
  value : List User
  odataNextLink : Option String
  deriving DecidableEq, Repr

/-- The `Users` struct of `main.go`. -/
structure Users where
  ID : String
  Name : String
  Email : String
  deriving DecidableEq, Repr

/-- A `time.Time`, as nanoseconds since the epoch. -/
structure Time where
  nanos : Int
  deriving DecidableEq, Repr

/-- A `*time.Location`. -/
inductive Location where
  | utc
  | localZone
  | named (name : String)
  deriving DecidableEq, Repr

/-- The `models.BodyType` enumeration. -/
inductive BodyType where
  | TEXT_BODYTYPE
  | HTML_BODYTYPE
  deriving DecidableEq, Repr

/-- A `models.EmailAddress`. -/
structure EmailAddress where
  name : Option String
  address : Option String
  deriving DecidableEq, Repr

/-- A `models.Recipient`. -/
structure Recipient where
  emailAddress : Option EmailAddress
  deriving DecidableEq, Repr

/-- A `models.ItemBody`. -/
structure ItemBody where
  content : Option String
  contentType : Option BodyType
  deriving DecidableEq, Repr

/-- A `models.Message`, with the properties the program reads or writes. -/
structure Message where
  subject : Option String
  body : Option ItemBody
  toRecipients : List Recipient
  from_ : Option Recipient
  isRead : Option Bool
  receivedDateTime : Option Time
  deriving DecidableEq, Repr

/-- The `models.MessageCollectionResponseable` value of a messages response. -/
structure MessageCollectionResponse where
  value : List Message
  odataNextLink : Option String
  deriving DecidableEq, Repr

/-- The query parameters the program sets on a GET request; `select` and
`orderby` are Go slices (empty when unset), `top` is an `*int32`. -/
structure QueryParameters where
  select : List String
  top : Option Int
  orderby : List String
  deriving DecidableEq, Repr

/-- The `users.ItemSendMailPostRequestBody`. -/
structure SendMailPostRequestBody where
  message : Option Message
  deriving DecidableEq, Repr

/-- A request sent to the remote side. -/
inductive Request where
  /-- The call `ClientSecretCredential.GetToken` with the given scopes. -/
  | getToken (scopes : List String)
  /-- The call `client.Users().Get`. -/
  | usersGet (q : QueryParameters)
  /-- The call `client.Users().ByUserId(userID).Messages().Get`. -/
  | messagesGet (userID : String) (q : QueryParameters)
  /-- The call `client.Users().ByUserId(userID).MailFolders().ByMailFolderId(folder)`
  `.Messages().Get`. -/
  | mailFolderMessagesGet (userID : String) (folder : String) (q : QueryParameters)
  /-- The call `client.Users().ByUserId(userID).SendMail().Post`. -/
  | sendMailPost (userID : String) (body : SendMailPostRequestBody)
  deriving DecidableEq, Repr

/-- An `azidentity.ClientSecretCredential`. -/
structure Credential where
  tenantID : String
  clientID : String
  clientSecret : String
  deriving DecidableEq, Repr

/-- The authentication provider built from a credential and its scopes. -/
structure AuthProvider where
  credential : Credential
  scopes : List String
  deriving DecidableEq, Repr

/-- The `msgraph.GraphServiceClient`, built on a request adapter over the
authentication provider. -/
structure GraphServiceClient where
  adapter : AuthProvider
  deriving DecidableEq, Repr

/-- The `GraphHelper` struct of `graph.go`; both fields are pointers. -/
structure GraphHelper where
  clientSecretCredential : Option Credential
  client : Option GraphServiceClient
  deriving DecidableEq, Repr

/-! ## The environment and the state -/

/-- What one `fmt.Scanf` call finds on standard input: `int` is what a `"%d"`
scan returns (`none` when the call returns an error), `str` is what a `"%s"`
scan leaves in its variable. -/
structure Scan where
  int : Option Int
  str : String
  deriving DecidableEq, Repr

/-- The environment of the process.  A remote operation answers as a function
of the requests issued so far, the current one last. -/
structure Host where
  /-- The error of `os.WriteFile(".env", envBytes, 0o644)`, if any. -/
  writeFile : Option Error
  /-- The error of `godotenv.Load()`, if any. -/
  dotenvLoad : Option Error
  /-- The function `os.Getenv`, once the `.env` file is loaded. -/
  getenv : String → String
  /-- The error of `azidentity.NewClientSecretCredential(tenantID, clientID, clientSecret, nil)`,
  if any. -/
  newClientSecretCredential : String → String → String → Option Error
  /-- The error of `auth.NewAzureIdentityAuthenticationProviderWithScopes`, if any. -/
  newAuthProvider : Credential → List String → Option Error
  /-- The error of `msgraph.NewGraphRequestAdapter`, if any. -/
  newRequestAdapter : AuthProvider → Option Error
  /-- The time zones `time.LoadLocation` finds on the machine. -/
  tzdb : String → Option Location
  /-- The text of `Time.In(location).String()`. -/
  timeString : Location → Time → String
  /-- The answer to a token request. -/
  getToken : List Request → Except Error String
  /-- The answer to a list-users request. -/
  usersGet : List Request → Except Error UserCollectionResponse
  /-- The answer to a messages request, of a mailbox or of one of its folders. -/
  messagesGet : List Request → Except Error MessageCollectionResponse
  /-- The error answered to a send-mail request, if any. -/
  sendMailPost : List Request → Option Error

/-- The mutable world of one run. -/
structure State where
  /-- Pending standard input, one entry per `Scanf` call. -/
  stdin : List Scan
  /-- Standard output, one entry per print call, oldest first. -/
  out : List String
  /-- Messages written by the `log` package, oldest first. -/
  log : List String
  /-- Requests issued, oldest first. -/
  trace : List Request
  deriving DecidableEq, Repr

/-- Why a run panicked. -/
inductive Panic where
  /-- A call of `panic(msg)`, `log.Panic` or `log.Panicf`. -/
  | explicit (msg : String)
  /-- Dereference of a nil pointer. -/
  | nilDereference
  /-- Slice index out of range. -/
  | indexOutOfRange
  deriving DecidableEq, Repr

/-- The result of running a computation. -/
inductive Res (α : Type) where
  | ok (a : α) (s : State)
  | panic (p : Panic) (s : State)
  | outOfFuel
  deriving DecidableEq, Repr

/-- A computation over the state. -/
def Prog (α : Type) : Type := State → Res α

/-- Sequencing: a panic or the end of the fuel stops the run. -/
def Prog.bind {α β : Type} (m : Prog α) (f : α → Prog β) : Prog β := fun s =>
  match m s with
  | .ok a s1 => f a s1
  | .panic p s1 => .panic p s1
  | .outOfFuel => .outOfFuel

/-- A computation that only returns. -/
def Prog.pure {α : Type} (a : α) : Prog α := fun s => .ok a s

instance : Monad Prog where
  pure := Prog.pure
  bind := Prog.bind

/-- Raise a panic. -/
def throwPanic {α : Type} (p : Panic) : Prog α := fun s => .panic p s

/-- The loop bound is used up. -/
def noFuel {α : Type} : Prog α := fun _ => .outOfFuel

/-- Pointer dereference `*p`. -/
def deref {α : Type} : Option α → Prog α
  | some a => Prog.pure a
  | none => throwPanic .nilDereference

/-- Slice indexing `xs[i]`. -/
def index {α : Type} (xs : List α) (i : Int) : Prog α :=
  if i < 0 then throwPanic .indexOutOfRange
  else match xs.get? i.toNat with
    | some a => Prog.pure a
    | none => throwPanic .indexOutOfRange

/-- Write to standard output (`fmt.Printf` with the text already formatted). -/
def printf (text : String) : Prog Unit := fun s =>
  .ok () { s with out := s.out ++ [text] }

/-- The call `fmt.Println(text)`. -/
def println (text : String) : Prog Unit := printf (text ++ "\n")

/-- The calls `log.Panic` and `log.Panicf`: log the message, then panic with it. -/
def logPanic {α : Type} (msg : String) : Prog α := fun s =>
  .panic (.explicit msg) { s with log := s.log ++ [msg] }

/-- A `fmt.Scanf("%d", &n)` call: the value read, or `none` on error.  At the
end of the input every call fails. -/
def scanInt : Prog (Option Int) := fun s =>
  match s.stdin with
  | [] => .ok none s
  | x :: rest => .ok x.int { s with stdin := rest }

/-- A `fmt.Scanf("%s", &v)` call whose error is ignored: the value of `v`
afterwards (`v` starts as the empty string). -/
def scanStr : Prog String := fun s =>
  match s.stdin with
  | [] => .ok "" s
  | x :: rest => .ok x.str { s with stdin := rest }

/-- Issue a request and receive the answer of the remote side. -/
def call {β : Type} (req : Request) (answer : List Request → β) : Prog β := fun s =>
  .ok (answer (s.trace ++ [req])) { s with trace := s.trace ++ [req] }

/-! ## graph.go -/

/-- The constructor `NewGraphHelper`. -/
def NewGraphHelper : GraphHelper := { clientSecretCredential := none, client := none }

/-- The scope requested everywhere. -/
def defaultScopes : List String := ["https://graph.microsoft.com/.default"]

/-- The method `InitializeGraphForAppAuth`: the helper afterwards and the
error returned. -/
def InitializeGraphForAppAuth (h : Host) (g : GraphHelper) : GraphHelper × Option Error :=
  let clientID := h.getenv "CLIENT_ID"
  let clientSecret := h.getenv "SECRET"
  let tenantID := h.getenv "TENANT_ID"
  match h.newClientSecretCredential tenantID clientID clientSecret with
  | some err => (g, some err)
  | none =>
    let credential : Credential := ⟨tenantID, clientID, clientSecret⟩
    let g1 : GraphHelper := { g with clientSecretCredential := some credential }
    match h.newAuthProvider credential defaultScopes with
    | some err => (g1, some err)
    | none =>
      let authProvider : AuthProvider := ⟨credential, defaultScopes⟩
      match h.newRequestAdapter authProvider with
      | some err => (g1, some err)
      | none => ({ g1 with client := some ⟨authProvider⟩ }, none)

/-- The method `GetAppToken`. -/
def GetAppToken (h : Host) (g : GraphHelper) : Prog (Except Error String) :=
  match g.clientSecretCredential with
  | none => throwPanic .nilDereference
  | some _ => call (.getToken defaultScopes) h.getToken

/-- The method `GetUsers`. -/
def GetUsers (h : Host) (g : GraphHelper) : Prog (Except Error UserCollectionResponse) :=
  let topValue : Int := 25
  let query : QueryParameters :=
    { select := ["displayName", "id", "mail"], top := some topValue, orderby := ["displayName"] }
  match g.client with
  | none => throwPanic .nilDereference
  | some _ => call (.usersGet query) h.usersGet

/-- The method `ReadMail`. -/
def ReadMail (h : Host) (g : GraphHelper) (userID : String) :
    Prog (Except Error MessageCollectionResponse) :=
  let topValue : Int := 3
  let query : QueryParameters := { select := [], top := some topValue, orderby := [] }
  match g.client with
  | none => throwPanic .nilDereference
  | some _ => call (.messagesGet userID query) h.messagesGet

/-- The method `GetInbox`. -/
def GetInbox (h : Host) (g : GraphHelper) (userID : String) :
    Prog (Except Error MessageCollectionResponse) :=
  let topValue : Int := 25
  let query : QueryParameters :=
    { select := ["from", "isRead", "receivedDateTime", "subject"], top := some topValue,
      orderby := ["receivedDateTime DESC"] }
  match g.client with
  | none => throwPanic .nilDereference
  | some _ => call (.mailFolderMessagesGet userID "inbox" query) h.messagesGet

/-- The constructor `models.NewMessage`. -/
def NewMessage : Message :=
  { subject := none, body := none, toRecipients := [], from_ := none, isRead := none,
    receivedDateTime := none }

/-- The method `SendMail`; `subject`, `body` and `recipient` are `*string`. -/
def SendMail (h : Host) (g : GraphHelper) (userID : String)
    (subject body recipient : Option String) : Prog (Option Error) :=
  let message := { NewMessage with subject := subject }
  let messageBody : ItemBody := { content := none, contentType := none }
  let messageBody := { messageBody with content := body }
  let contentType := BodyType.TEXT_BODYTYPE
  let messageBody := { messageBody with contentType := some contentType }
  let message := { message with body := some messageBody }
  let toRecipient : Recipient := { emailAddress := none }
  let emailAddress : EmailAddress := { name := none, address := none }
  let emailAddress := { emailAddress with address := recipient }
  let toRecipient := { toRecipient with emailAddress := some emailAddress }
  let message := { message with toRecipients := [toRecipient] }
  let sendMailBody : SendMailPostRequestBody := { message := none }
  let sendMailBody := { sendMailBody with message := some message }
  match g.client with
  | none => throwPanic .nilDereference
  | some _ => call (.sendMailPost userID sendMailBody) h.sendMailPost

/-! ## main.go -/

/-- The function `time.LoadLocation` of the Go standard library: the names
`""`, `"UTC"` and `"Local"` are answered without a lookup. -/
def LoadLocation (h : Host) (name : String) : Except Error Location :=
  if name = "" ∨ name = "UTC" then .ok .utc
  else if name = "Local" then .ok .localZone
  else match h.tzdb name with
    | some l => .ok l
    | none => .error ("unknown time zone " ++ name)

/-- The function `initializeGraph`: the initialised helper, or a panic. -/
def initializeGraph (h : Host) (graphHelper : GraphHelper) : Prog GraphHelper :=
  match InitializeGraphForAppAuth h graphHelper with
  | (_, some err) => logPanic ("Error initializing Graph for app auth: " ++ err ++ "\n")
  | (g, none) => Prog.pure g

/-- The function `displayAccessToken`. -/
def displayAccessToken (h : Host) (graphHelper : GraphHelper) : Prog Unit := do
  let r ← GetAppToken h graphHelper
  match r with
  | .error err => logPanic ("Error getting user token: " ++ err ++ "\n")
  | .ok token =>
    printf ("App-only token: " ++ token)
    println ""

/-- The `range` loop of `getUsers`, `users` being the slice built so far. -/
def getUsersLoop : List User → List Users → Prog (List Users)
  | [], users => Prog.pure users
  | user :: rest, users => do
    let id ← deref user.id
    let name ← deref user.displayName
    let email ← deref user.mail
    let email := if email = "" then "NO EMAIL" else email
    getUsersLoop rest (users ++ [{ ID := id, Name := name, Email := email }])

/-- The function `getUsers`. -/
def getUsers (h : Host) (g : GraphHelper) : Prog (Except Error (List Users)) := do
  let r ← GetUsers h g
  match r with
  | .error err => Prog.pure (.error ("Error getting users: " ++ err))
  | .ok u =>
    let users ← getUsersLoop u.value []
    Prog.pure (.ok users)

/-- The `range` loop of `listUsers`, from index `idx` on. -/
def listUsersFrom (ident : String) : Nat → List Users → Prog Unit
  | _, [] => Prog.pure ()
  | idx, u :: rest => do
    printf (ident ++ toString (idx + 1) ++ ". User: " ++ u.Name ++ "\n")
    printf (ident ++ "  ID: " ++ u.ID ++ "\n")
    printf (ident ++ "  Email: " ++ u.Email ++ "\n")
    listUsersFrom ident (idx + 1) rest

/-- The function `listUsers`. -/
def listUsers (users : List Users) (ident : String) : Prog Unit :=
  listUsersFrom ident 0 users

/-- The `range` loop of `listInbox` over the messages of the response. -/
def printMessages (h : Host) (ident : String) (location : Location) : List Message → Prog Unit
  | [] => Prog.pure ()
  | message :: rest => do
    let subject ← deref message.subject
    printf (ident ++ "Message: " ++ subject ++ "\n")
    let sender ← deref message.from_
    let emailAddress ← deref sender.emailAddress
    let name ← deref emailAddress.name
    printf (ident ++ "  From: " ++ name ++ "\n")
    let isRead ← deref message.isRead
    let status := if isRead then "Read" else "Unread"
    printf (ident ++ "  Status: " ++ status ++ "\n")
    let received ← deref message.receivedDateTime
    printf (ident ++ "  Received: " ++ h.timeString location received ++ "\n")
    printMessages h ident location rest

/-- The rest of an iteration of the `for` loop of `listInbox` once a user is
chosen: the `GetInbox` call and the printing of its response. -/
def showInbox (h : Host) (graphHelper : GraphHelper) (ident : String) (userID : String) :
    Prog Unit := do
  let r ← GetInbox h graphHelper userID
  match r with
  | .error err => printf (ident ++ "Error getting user's inbox: " ++ err ++ "\n")
  | .ok messages =>
    match LoadLocation h "Local" with
    | .error err => printf (ident ++ "Error getting local timezone: " ++ err ++ "\n")
    | .ok location => do
      printMessages h ident location messages.value
      let nextLink := messages.odataNextLink
      println ""
      printf (ident ++ "More messages available? " ++ toString nextLink.isSome ++ "\n")
      println ""

/-- The `for` loop of `listInbox`; `choice` is the variable declared before it. -/
def listInboxLoop (h : Host) (graphHelper : GraphHelper) (ident : String)
    (users : List Users) : Nat → Int → Prog Unit
  | 0, _ => noFuel
  | fuel + 1, _ => do
    println ""
    printf (ident ++ "Please choose one of the following users:\n")
    listUsers users ident
    let r ← scanInt
    let choice : Int := match r with
      | some n => n
      | none => -1
    if choice > users.length ∨ choice < 1 then do
      printf (ident ++ "Invalid choice! Please try again.\n")
      listInboxLoop h graphHelper ident users fuel choice
    else do
      println ""
      println ""
      let user ← index users (choice - 1)
      showInbox h graphHelper ident user.ID

/-- The function `listInbox`. -/
def listInbox (h : Host) (graphHelper : GraphHelper) (ident : String) (fuel : Nat) :
    Prog Unit := do
  let choice : Int := -1
  let r ← getUsers h graphHelper
  match r with
  | .error err => logPanic err
  | .ok users => listInboxLoop h graphHelper ident users fuel choice

/-- The end of an iteration of the `for` loop of `sendMail`: the `SendMail`
call and the report of its result. -/
def submitMail (h : Host) (graphHelper : GraphHelper) (ident : String) (userID : String)
    (subject body recipient : String) : Prog Unit := do
  let err ← SendMail h graphHelper userID (some subject) (some body) (some recipient)
  match err with
  | some err => printf (ident ++ "Error sending mail: " ++ err ++ "\n")
  | none => printf (ident ++ "Mail successfully sent!\n")

/-- The `for` loop of `sendMail`; `choice` is the variable declared before it. -/
def sendMailLoop (h : Host) (graphHelper : GraphHelper) (ident : String)
    (users : List Users) : Nat → Int → Prog Unit
  | 0, _ => noFuel
  | fuel + 1, _ => do
    printf (ident ++
      "Please choose one of the following users on whose behalf you want to send a mail:\n")
    listUsers users ident
    let r ← scanInt
    let choice : Int := match r with
      | some n => n
      | none => -1
    if choice > users.length ∨ choice < 1 then do
      printf (ident ++ "Invalid choice! Please try again.\n")
      sendMailLoop h graphHelper ident users fuel choice
    else do
      printf (ident ++ "Please enter the subject of the mail:\n")
      let subject ← scanStr
      printf (ident ++ "Please enter the body of the mail:\n")
      let body ← scanStr
      printf (ident ++ "Please enter the recipient's email address:\n")
      let recipient ← scanStr
      println ""
      println ""
      let user ← index users (choice - 1)
      submitMail h graphHelper ident user.ID subject body recipient

/-- The function `sendMail`. -/
def sendMail (h : Host) (graphHelper : GraphHelper) (ident : String) (fuel : Nat) :
    Prog Unit := do
  let choice : Int := -1
  let r ← getUsers h graphHelper
  match r with
  | .error err => logPanic err
  | .ok users => sendMailLoop h graphHelper ident users fuel choice

/-- The menu printed at the top of every iteration of the main loop. -/
def printMenu : Prog Unit := do
  println "Please choose one of the following options:"
  println "0. Exit"
  println "1. Display access token"
  println "2. List users"
  println "3. Read mail"
  println "4. Send mail"

/-- The `switch` of the main loop. -/
def dispatch (h : Host) (graph : GraphHelper) (fuel : Nat) (choice : Int) : Prog Unit :=
  let ident := "    "
  if choice = 0 then println "Goodbye..."
  else if choice = 1 then displayAccessToken h graph
  else if choice = 2 then do
    let r ← getUsers h graph
    match r with
    | .error err => logPanic err
    | .ok users => listUsers users ""
  else if choice = 3 then listInbox h graph ident fuel
  else if choice = 4 then sendMail h graph ident fuel
  else println "Invalid choice! Please try again."

/-- One iteration of the main loop up to its closing test: the value of
`choice` the test sees. -/
def mainIteration (h : Host) (graph : GraphHelper) (fuel : Nat) (_choice : Int) : Prog Int := do
  printMenu
  let r ← scanInt
  let choice : Int := match r with
    | some n => n
    | none => -1
  dispatch h graph fuel choice
  Prog.pure choice

/-- The `for` loop of `main`; `choice` is the variable declared before it. -/
def mainLoop (h : Host) (graph : GraphHelper) : Nat → Int → Prog Unit
  | 0, _ => noFuel
  | fuel + 1, choice => do
    let choice ← mainIteration h graph fuel choice
    if choice = 0 then Prog.pure () else mainLoop h graph fuel choice

/-- The function `main`. -/
def main (h : Host) (fuel : Nat) : Prog Unit :=
  match h.writeFile with
  | some _ => throwPanic (.explicit "Error writing .env file")
  | none =>
    match h.dotenvLoad with
    | some _ => throwPanic (.explicit "Error loading .env file")
    | none => do
      let graph := NewGraphHelper
      let graph ← initializeGraph h graph
      mainLoop h graph fuel (-1)

/-- A state with the given standard input and nothing written or sent yet. -/
def State.start (stdin : List Scan) : State :=
  { stdin := stdin, out := [], log := [], trace := [] }

/-! ## Vocabulary of the statements -/

/-- What the next `"%d"` scan returns, given the pending input. -/
def nextInt (stdin : List Scan) : Option Int :=
  match stdin with
  | [] => none
  | x :: _ => x.int

/-- What the next `"%s"` scan stores, given the pending input. -/
def nextStr (stdin : List Scan) : String :=
  match stdin with
  | [] => ""
  | x :: _ => x.str

/-- The six lines of the main menu. -/
def menuLines : List String :=
  ["Please choose one of the following options:\n", "0. Exit\n", "1. Display access token\n",
   "2. List users\n", "3. Read mail\n", "4. Send mail\n"]

/-- The lines `listUsers` prints for the users from index `idx` on. -/
def usersLines (ident : String) : Nat → List Users → List String
  | _, [] => []
  | idx, u :: rest =>
    [ident ++ toString (idx + 1) ++ ". User: " ++ u.Name ++ "\n",
     ident ++ "  ID: " ++ u.ID ++ "\n",
     ident ++ "  Email: " ++ u.Email ++ "\n"] ++ usersLines ident (idx + 1) rest

/-- The block of four lines printed for a message that carries a subject, a
sender with a name, a read flag and a reception time; `none` otherwise. -/
def messageBlock (h : Host) (ident : String) (location : Location) (m : Message) :
    Option (List String) :=
  match m.subject, m.from_, m.isRead, m.receivedDateTime with
  | some subject, some ⟨some ⟨some name, _⟩⟩, some isRead, some received =>
    some [ident ++ "Message: " ++ subject ++ "\n",
          ident ++ "  From: " ++ name ++ "\n",
          ident ++ "  Status: " ++ (if isRead then "Read" else "Unread") ++ "\n",
          ident ++ "  Received: " ++ h.timeString location received ++ "\n"]
  | _, _, _, _ => none

/-- The request `GetUsers` sends. -/
def usersRequest : Request :=
  .usersGet { select := ["displayName", "id", "mail"], top := some 25, orderby := ["displayName"] }

/-- The request `GetInbox` sends for `userID`. -/
def inboxRequest (userID : String) : Request :=
  .mailFolderMessagesGet userID "inbox"
    { select := ["from", "isRead", "receivedDateTime", "subject"], top := some 25,
      orderby := ["receivedDateTime DESC"] }

/-- The request `SendMail` sends. -/
def sendMailRequest (userID : String) (subject body recipient : Option String) : Request :=
  .sendMailPost userID
    { message := some
        { subject := subject,
          body := some { content := body, contentType := some .TEXT_BODYTYPE },
          toRecipients := [{ emailAddress := some { name := none, address := recipient } }],
          from_ := none, isRead := none, receivedDateTime := none } }

/-- The entry `getUsers` builds for a user whose three properties are present. -/
def toUsers (u : User) : Users :=
  { ID := u.id.getD "", Name := u.displayName.getD "",
    Email := if u.mail.getD "" = "" then "NO EMAIL" else u.mail.getD "" }

/-- A host whose start-up succeeds, with every variable set, and whose remote
side gives the same four answers whatever the request. -/
def Host.answering (token : Except Error String) (users : Except Error UserCollectionResponse)
    (messages : Except Error MessageCollectionResponse) (send : Option Error) : Host :=
  { writeFile := none, dotenvLoad := none, getenv := fun _ => "set",
    newClientSecretCredential := fun _ _ _ => none,
    newAuthProvider := fun _ _ => none, newRequestAdapter := fun _ => none,
    tzdb := fun _ => none, timeString := fun _ t => toString t.nanos,
    getToken := fun _ => token, usersGet := fun _ => users,
    messagesGet := fun _ => messages, sendMailPost := fun _ => send }

/-- The helper `InitializeGraphForAppAuth` leaves when every variable is `"set"`. -/
def readyHelper : GraphHelper :=
  { clientSecretCredential := some ⟨"set", "set", "set"⟩,
    client := some ⟨⟨⟨"set", "set", "set"⟩, defaultScopes⟩⟩ }

/-- A directory of two users sorted by name, the mail of the second being the
empty string. -/
def twoUsers : UserCollectionResponse :=
  { value := [⟨some "id-1", some "Ann", some "ann@example.com"⟩,
              ⟨some "id-2", some "Bob", some ""⟩],
    odataNextLink := none }

/-- A directory whose second user has no mail property. -/
def userWithoutMail : UserCollectionResponse :=
  { value := [⟨some "id-1", some "Ann", some "ann@example.com"⟩,
              ⟨some "id-2", some "Bob", none⟩],
    odataNextLink := none }

/-- An inbox page of one complete message, with a next-page link. -/
def onePage : MessageCollectionResponse :=
  { value := [{ subject := some "Hello", body := none, toRecipients := [],
                from_ := some ⟨some ⟨some "Ann", some "ann@example.com"⟩⟩,
                isRead := some false, receivedDateTime := some ⟨42⟩ }],
    odataNextLink := some "https://graph.microsoft.com/v1.0/next" }

/-- An inbox page whose only message has no sender. -/
def pageWithoutSender : MessageCollectionResponse :=
  { value := [{ subject := some "Draft", body := none, toRecipients := [],
                from_ := none, isRead := some true, receivedDateTime := some ⟨42⟩ }],
    odataNextLink := none }

/-- An empty inbox page without a next-page link. -/
def emptyPage : MessageCollectionResponse := { value := [], odataNextLink := none }

/-- The lines with which an iteration of the loop of `listInbox` asks for a user. -/
def inboxPrompt (ident : String) (users : List Users) : List String :=
  ["\n", ident ++ "Please choose one of the following users:\n"] ++ usersLines ident 0 users

/-- The lines with which an iteration of the loop of `sendMail` asks for a user. -/
def sendPrompt (ident : String) (users : List Users) : List String :=
  [ident ++ "Please choose one of the following users on whose behalf you want to send a mail:\n"]
    ++ usersLines ident 0 users

/-- The three questions `sendMail` asks once a user is chosen. -/
def mailQuestions (ident : String) : List String :=
  [ident ++ "Please enter the subject of the mail:\n",
   ident ++ "Please enter the body of the mail:\n",
   ident ++ "Please enter the recipient's email address:\n"]

/-- The three lines that close the listing of an inbox page. -/
def pageFooter (ident : String) (resp : MessageCollectionResponse) : List String :=
  ["\n",
   ident ++ "More messages available? "
     ++ (if resp.odataNextLink = none then "false" else "true") ++ "\n",
   "\n"]

/-- A credential constructor for sample hosts: it refuses an empty secret and
an empty tenant ID, and accepts every other triple, whatever the client ID. -/
def refuseEmptySecretOrTenant (tenantID _clientID clientSecret : String) : Option Error :=
  if clientSecret = "" then some "empty secret"
  else if tenantID = "" then some "empty tenant ID"
  else none

/-- A host with `SECRET` and `TENANT_ID` set and `CLIENT_ID` unset, whose
credential constructor refuses an empty secret and an empty tenant ID and does
not inspect the client ID. -/
def hostWithoutClientID : Host :=
  { Host.answering (.ok "t") (.ok twoUsers) (.ok emptyPage) none with
    getenv := fun key =>
      if key = "SECRET" then "s3cret" else if key = "TENANT_ID" then "contoso" else "",
    newClientSecretCredential := refuseEmptySecretOrTenant }

/-- A host with `CLIENT_ID` and `TENANT_ID` set and `SECRET` unset, whose
credential constructor refuses an empty secret and an empty tenant ID and does
not inspect the client ID. -/
def hostWithoutSecret : Host :=
  { Host.answering (.ok "t") (.ok twoUsers) (.ok emptyPage) none with
    getenv := fun key =>
      if key = "CLIENT_ID" then "app-1" else if key = "TENANT_ID" then "contoso" else "",
    newClientSecretCredential := refuseEmptySecretOrTenant }

/-- A host whose remote side refuses the token, the inbox and the mail, and
lists two users. -/
def refusingHost : Host :=
  Host.answering (.error "unauthorized") (.ok twoUsers) (.error "mailbox not found")
    (some "denied")

/-- A host whose remote side refuses to list the users. -/
def hostWithoutDirectory : Host :=
  Host.answering (.ok "t") (.error "forbidden") (.ok emptyPage) none

/-! ## Running the primitives -/

theorem run_bind {α β : Type} (m : Prog α) (f : α → Prog β) (s : State) :
    (m >>= f) s = match m s with
      | .ok a s1 => f a s1
      | .panic p s1 => .panic p s1
      | .outOfFuel => .outOfFuel := rfl

@[simp] theorem run_pure_bind {α β : Type} (a : α) (f : α → Prog β) (s : State) :
    (Prog.pure a >>= f) s = f a s := rfl

@[simp] theorem run_pure {α : Type} (a : α) (s : State) : (Prog.pure a) s = .ok a s := rfl

@[simp] theorem run_printf_bind {β : Type} (t : String) (f : Unit → Prog β) (s : State) :
    (printf t >>= f) s = f () { s with out := s.out ++ [t] } := rfl

@[simp] theorem run_printf (t : String) (s : State) :
    printf t s = .ok () { s with out := s.out ++ [t] } := rfl

@[simp] theorem run_println_bind {β : Type} (t : String) (f : Unit → Prog β) (s : State) :
    (println t >>= f) s = f () { s with out := s.out ++ [t ++ "\n"] } := rfl

@[simp] theorem run_println (t : String) (s : State) :
    println t s = .ok () { s with out := s.out ++ [t ++ "\n"] } := rfl

@[simp] theorem run_throwPanic_bind {α β : Type} (p : Panic) (f : α → Prog β) (s : State) :
    ((throwPanic p : Prog α) >>= f) s = .panic p s := rfl

@[simp] theorem run_throwPanic {α : Type} (p : Panic) (s : State) :
    (throwPanic p : Prog α) s = .panic p s := rfl

@[simp] theorem run_logPanic {α : Type} (msg : String) (s : State) :
    (logPanic msg : Prog α) s = .panic (.explicit msg) { s with log := s.log ++ [msg] } := rfl

@[simp] theorem run_noFuel {α : Type} (s : State) : (noFuel : Prog α) s = .outOfFuel := rfl

@[simp] theorem run_call_bind {β γ : Type} (req : Request) (answer : List Request → β)
    (f : β → Prog γ) (s : State) :
    (call req answer >>= f) s
      = f (answer (s.trace ++ [req])) { s with trace := s.trace ++ [req] } := rfl

@[simp] theorem run_call {β : Type} (req : Request) (answer : List Request → β) (s : State) :
    call req answer s = .ok (answer (s.trace ++ [req])) { s with trace := s.trace ++ [req] } :=
  rfl

theorem run_scanInt (s : State) :
    scanInt s = .ok (nextInt s.stdin) { s with stdin := s.stdin.tail } := by
  obtain ⟨stdin, out, log, trace⟩ := s
  cases stdin <;> rfl

@[simp] theorem run_scanInt_bind {β : Type} (f : Option Int → Prog β) (s : State) :
    (scanInt >>= f) s = f (nextInt s.stdin) { s with stdin := s.stdin.tail } := by
  rw [run_bind, run_scanInt]

theorem run_scanStr (s : State) :
    scanStr s = .ok (nextStr s.stdin) { s with stdin := s.stdin.tail } := by
  obtain ⟨stdin, out, log, trace⟩ := s
  cases stdin <;> rfl

@[simp] theorem run_scanStr_bind {β : Type} (f : String → Prog β) (s : State) :
    (scanStr >>= f) s = f (nextStr s.stdin) { s with stdin := s.stdin.tail } := by
  rw [run_bind, run_scanStr]

@[simp] theorem run_deref_some_bind {α β : Type} (a : α) (f : α → Prog β) (s : State) :
    (deref (some a) >>= f) s = f a s := rfl

@[simp] theorem run_deref_none_bind {α β : Type} (f : α → Prog β) (s : State) :
    (deref (none : Option α) >>= f) s = .panic .nilDereference s := rfl

theorem run_index {α : Type} (xs : List α) (n : Int) (h1 : 1 ≤ n) (h2 : n ≤ xs.length) :
    ∃ a, xs.get? (n - 1).toNat = some a ∧
      ∀ (β : Type) (f : α → Prog β) (s : State), (index xs (n - 1) >>= f) s = f a s := by
  have hlt : (n - 1).toNat < xs.length := by omega
  refine ⟨xs.get ⟨(n - 1).toNat, hlt⟩, List.get?_eq_get hlt, fun β f s => ?_⟩
  have hneg : ¬ (n - 1 < 0) := by omega
  rw [run_bind]
  unfold index
  rw [if_neg hneg, List.get?_eq_get hlt]
  rfl

theorem run_listUsersFrom (ident : String) (users : List Users) :
    ∀ (idx : Nat) (s : State),
      listUsersFrom ident idx users s = .ok () { s with out := s.out ++ usersLines ident idx users } := by
  induction users with
  | nil => intro idx s; simp [listUsersFrom, usersLines]
  | cons u rest ih =>
    intro idx s
    simp [listUsersFrom, usersLines, ih]

@[simp] theorem run_listUsers (users : List Users) (ident : String) (s : State) :
    listUsers users ident s = .ok () { s with out := s.out ++ usersLines ident 0 users } :=
  run_listUsersFrom ident users 0 s

@[simp] theorem run_listUsers_bind {β : Type} (users : List Users) (ident : String)
    (f : Unit → Prog β) (s : State) :
    (listUsers users ident >>= f) s = f () { s with out := s.out ++ usersLines ident 0 users } := by
  rw [run_bind, run_listUsers]

@[simp] theorem run_printMenu_bind {β : Type} (f : Unit → Prog β) (s : State) :
    (printMenu >>= f) s = f () { s with out := s.out ++ menuLines } := by
  simp [run_bind, printMenu, menuLines]

/-! ## graph.go: the requests -/

theorem run_GetUsers (h : Host) (g : GraphHelper) (c : GraphServiceClient) (s : State)
    (hg : g.client = some c) :
    GetUsers h g s
      = .ok (h.usersGet (s.trace ++ [usersRequest])) { s with trace := s.trace ++ [usersRequest] } := by
  simp [GetUsers, hg, usersRequest]

theorem run_GetInbox (h : Host) (g : GraphHelper) (c : GraphServiceClient) (userID : String)
    (s : State) (hg : g.client = some c) :
    GetInbox h g userID s
      = .ok (h.messagesGet (s.trace ++ [inboxRequest userID]))
          { s with trace := s.trace ++ [inboxRequest userID] } := by
  simp [GetInbox, hg, inboxRequest]

theorem run_SendMail (h : Host) (g : GraphHelper) (c : GraphServiceClient) (userID : String)
    (subject body recipient : Option String) (s : State) (hg : g.client = some c) :
    SendMail h g userID subject body recipient s
      = .ok (h.sendMailPost (s.trace ++ [sendMailRequest userID subject body recipient]))
          { s with trace := s.trace ++ [sendMailRequest userID subject body recipient] } := by
  simp [SendMail, hg, sendMailRequest, NewMessage]

/-- C7: for an initialised helper and every `userID`, `subject`, `body` and
`recipient`, `SendMail` adds exactly one request to the trace, a send-mail
request on behalf of `userID` whose message has the given subject, a body with
the given content and content type text, and exactly one to-recipient, whose
address is the given recipient; it returns what the remote side answers to
that request. -/
theorem SendMail_one_request (h : Host) (g : GraphHelper) (c : GraphServiceClient)
    (userID : String) (subject body recipient : Option String) (s : State)
    (hg : g.client = some c) :
    ∃ (message : Message) (itemBody : ItemBody) (emailAddress : EmailAddress),
      SendMail h g userID subject body recipient s
        = .ok (h.sendMailPost (s.trace ++ [.sendMailPost userID ⟨some message⟩]))
            { s with trace := s.trace ++ [.sendMailPost userID ⟨some message⟩] }
      ∧ message.subject = subject
      ∧ message.body = some itemBody
      ∧ itemBody.content = body
      ∧ itemBody.contentType = some .TEXT_BODYTYPE
      ∧ message.toRecipients = [⟨some emailAddress⟩]
      ∧ emailAddress.address = recipient := by
  refine ⟨_, _, _, run_SendMail h g c userID subject body recipient s hg, rfl, rfl, rfl, rfl,
    rfl, rfl⟩

/-- Witness of C7: the request of the fourth testable property, sent for
user `id-1` to a remote side that refuses it. -/
theorem SendMail_one_request_witness :
    ∃ (message : Message) (itemBody : ItemBody) (emailAddress : EmailAddress),
      SendMail (Host.answering (.ok "t") (.ok twoUsers) (.ok emptyPage) (some "denied"))
          readyHelper "id-1" (some "Test") (some "Body") (some "a@example.com") (State.start [])
        = .ok (some "denied")
            { State.start [] with trace := [] ++ [.sendMailPost "id-1" ⟨some message⟩] }
      ∧ message.subject = some "Test"
      ∧ message.body = some itemBody
      ∧ itemBody.content = some "Body"
      ∧ itemBody.contentType = some .TEXT_BODYTYPE
      ∧ message.toRecipients = [⟨some emailAddress⟩]
      ∧ emailAddress.address = some "a@example.com" :=
  SendMail_one_request (Host.answering (.ok "t") (.ok twoUsers) (.ok emptyPage) (some "denied"))
    readyHelper ⟨⟨⟨"set", "set", "set"⟩, defaultScopes⟩⟩ "id-1" (some "Test") (some "Body")
    (some "a@example.com") (State.start []) rfl

/-- C10, as stated, fails: `ReadMail` has no limit parameter, and asked for
user `id-1` it sends a request whose `top` is 3, so `top` is not the limit 10. -/
theorem ReadMail_top_is_not_the_limit :
    ¬ ∀ (limit : Int) (h : Host) (g : GraphHelper) (userID : String) (s : State),
        g.client ≠ none →
        ∃ q r, ReadMail h g userID s
            = .ok r { s with trace := s.trace ++ [.messagesGet userID q] }
          ∧ q.top = some limit ∧ q.select = [] := by
  intro hall
  obtain ⟨q, r, hrun, htop, -⟩ :=
    hall 10 (Host.answering (.ok "t") (.ok twoUsers) (.ok emptyPage) none) readyHelper "id-1"
      (State.start []) (by decide)
  have hq : q = { select := [], top := some 3, orderby := [] } := by
    have hrun2 : (Res.ok (Except.ok emptyPage)
        { State.start [] with
          trace := [Request.messagesGet "id-1" { select := [], top := some 3, orderby := [] }] } :
          Res (Except Error MessageCollectionResponse))
        = .ok r { State.start [] with trace := [] ++ [.messagesGet "id-1" q] } := hrun
    injection hrun2 with _ hs
    have ht := congrArg State.trace hs
    simp at ht
    exact ht.symm
  rw [hq] at htop
  simp at htop

/-- C10, amended: for an initialised helper and every `userID`, `ReadMail`
adds exactly one request to the trace, a messages request for `userID` whose
`top` is the constant 3 and that carries neither `select` nor `orderby`, and
returns the answer to it. -/
theorem ReadMail_one_request (h : Host) (g : GraphHelper) (c : GraphServiceClient)
    (userID : String) (s : State) (hg : g.client = some c) :
    ReadMail h g userID s
      = .ok (h.messagesGet
              (s.trace ++ [.messagesGet userID { select := [], top := some 3, orderby := [] }]))
          { s with
            trace := s.trace ++ [.messagesGet userID { select := [], top := some 3, orderby := [] }] } := by
  simp [ReadMail, hg]

/-- Witness of the amended C10 on an empty mailbox. -/
theorem ReadMail_one_request_witness :
    ReadMail (Host.answering (.ok "t") (.ok twoUsers) (.ok emptyPage) none) readyHelper "id-1"
        (State.start [])
      = .ok (.ok emptyPage)
          { State.start [] with
            trace := [] ++ [.messagesGet "id-1" { select := [], top := some 3, orderby := [] }] } :=
  ReadMail_one_request (Host.answering (.ok "t") (.ok twoUsers) (.ok emptyPage) none) readyHelper
    ⟨⟨⟨"set", "set", "set"⟩, defaultScopes⟩⟩ "id-1" (State.start []) rfl

/-! ## getUsers -/

theorem run_getUsersLoop (us : List User) :
    ∀ (acc : List Users) (s : State),
      (∀ u ∈ us, u.id ≠ none ∧ u.displayName ≠ none ∧ u.mail ≠ none) →
      getUsersLoop us acc s = .ok (acc ++ us.map toUsers) s := by
  induction us with
  | nil => intro acc s _; simp [getUsersLoop]
  | cons u rest ih =>
    intro acc s hall
    obtain ⟨id, name, mail⟩ := u
    have hu := hall ⟨id, name, mail⟩ (List.mem_cons_self _ _)
    have hrest : ∀ v ∈ rest, v.id ≠ none ∧ v.displayName ≠ none ∧ v.mail ≠ none :=
      fun v hv => hall v (List.mem_cons_of_mem _ hv)
    cases id with
    | none => exact absurd rfl hu.1
    | some id =>
      cases name with
      | none => exact absurd rfl hu.2.1
      | some name =>
        cases mail with
        | none => exact absurd rfl hu.2.2
        | some mail => simp [getUsersLoop, ih _ _ hrest, toUsers]

theorem run_getUsers_ok (h : Host) (g : GraphHelper) (c : GraphServiceClient) (s : State)
    (resp : UserCollectionResponse) (hg : g.client = some c)
    (hresp : h.usersGet (s.trace ++ [usersRequest]) = .ok resp)
    (hall : ∀ u ∈ resp.value, u.id ≠ none ∧ u.displayName ≠ none ∧ u.mail ≠ none) :
    getUsers h g s
      = .ok (.ok (resp.value.map toUsers)) { s with trace := s.trace ++ [usersRequest] } := by
  simp [getUsers, run_bind, run_GetUsers h g c s hg, hresp, run_getUsersLoop _ _ _ hall]

theorem run_getUsers_error (h : Host) (g : GraphHelper) (c : GraphServiceClient) (s : State)
    (e : Error) (hg : g.client = some c)
    (hresp : h.usersGet (s.trace ++ [usersRequest]) = .error e) :
    getUsers h g s
      = .ok (.error ("Error getting users: " ++ e))
          { s with trace := s.trace ++ [usersRequest] } := by
  simp [getUsers, run_bind, run_GetUsers h g c s hg, hresp]

theorem run_getUsersLoop_absent (us : List User) :
    ∀ (acc : List Users) (s : State), (∃ u ∈ us, u.mail = none) →
      getUsersLoop us acc s = .panic .nilDereference s := by
  induction us with
  | nil => intro acc s hex; obtain ⟨u, hu, -⟩ := hex; cases hu
  | cons v rest ih =>
    intro acc s hex
    obtain ⟨id, name, mail⟩ := v
    cases id with
    | none => simp [getUsersLoop]
    | some id =>
      cases name with
      | none => simp [getUsersLoop]
      | some name =>
        cases mail with
        | none => simp [getUsersLoop]
        | some mail =>
          have hrest : ∃ u ∈ rest, u.mail = none := by
            obtain ⟨u, hu, hnone⟩ := hex
            rcases List.mem_cons.mp hu with rfl | hmem
            · cases hnone
            · exact ⟨u, hmem, hnone⟩
          simp [getUsersLoop, ih _ _ hrest]

theorem run_getUsers_absent (h : Host) (g : GraphHelper) (c : GraphServiceClient) (s : State)
    (resp : UserCollectionResponse) (hg : g.client = some c)
    (hresp : h.usersGet (s.trace ++ [usersRequest]) = .ok resp)
    (hex : ∃ u ∈ resp.value, u.mail = none) :
    getUsers h g s = .panic .nilDereference { s with trace := s.trace ++ [usersRequest] } := by
  simp [getUsers, run_bind, run_GetUsers h g c s hg, hresp, run_getUsersLoop_absent _ _ _ hex]

theorem readyHelper_initialised (token : Except Error String)
    (users : Except Error UserCollectionResponse)
    (messages : Except Error MessageCollectionResponse) (send : Option Error) :
    InitializeGraphForAppAuth (Host.answering token users messages send) NewGraphHelper
      = (readyHelper, none) := rfl

/-- C1 fails on the code: for a successful response whose second user has no
mail property, `getUsers` does not return an entry with `Email = "NO EMAIL"`;
it panics on the nil pointer, after the request, with nothing printed. -/
theorem getUsers_absent_mail_panics :
    getUsers (Host.answering (.ok "t") (.ok userWithoutMail) (.ok emptyPage) none) readyHelper
        (State.start [])
      = .panic .nilDereference { State.start [] with trace := [usersRequest] } := by
  rfl

/-- C8: `GetUsers` sends one request with `top = 25`,
`select = [displayName, id, mail]` and `orderby = [displayName]`; and for every
answer to it that carries at most 25 users, each with id, displayName and mail
present, sorted by displayName for an order `le`, `getUsers` returns a list of
the same length, hence of at most 25 entries, sorted by `Name` for `le`, whose
i-th entry carries the id and displayName of the i-th user of the answer. -/
theorem getUsers_honoured_request (h : Host) (g : GraphHelper) (c : GraphServiceClient)
    (s : State) (resp : UserCollectionResponse) (le : String → String → Prop)
    (hg : g.client = some c)
    (hresp : h.usersGet
        (s.trace ++ [.usersGet { select := ["displayName", "id", "mail"], top := some 25,
                                 orderby := ["displayName"] }]) = .ok resp)
    (hall : ∀ u ∈ resp.value, u.id ≠ none ∧ u.displayName ≠ none ∧ u.mail ≠ none)
    (hlen : resp.value.length ≤ 25)
    (hsorted : resp.value.Pairwise
        (fun a b => ∀ x y, a.displayName = some x → b.displayName = some y → le x y)) :
    GetUsers h g s
        = .ok (.ok resp)
            { s with
              trace := s.trace ++ [.usersGet { select := ["displayName", "id", "mail"],
                                               top := some 25, orderby := ["displayName"] }] }
    ∧ ∃ users : List Users,
        getUsers h g s
          = .ok (.ok users)
              { s with
                trace := s.trace ++ [.usersGet { select := ["displayName", "id", "mail"],
                                                 top := some 25, orderby := ["displayName"] }] }
        ∧ users.length = resp.value.length
        ∧ users.length ≤ 25
        ∧ users.Pairwise (fun a b => le a.Name b.Name)
        ∧ ∀ (i : Nat) (h1 : i < resp.value.length) (h2 : i < users.length),
            (resp.value.get ⟨i, h1⟩).id = some (users.get ⟨i, h2⟩).ID
            ∧ (resp.value.get ⟨i, h1⟩).displayName = some (users.get ⟨i, h2⟩).Name := by
  have hname : ∀ u ∈ resp.value, u.displayName = some (toUsers u).Name := by
    intro u hu
    have := (hall u hu).2.1
    cases hd : u.displayName with
    | none => exact absurd hd this
    | some n => simp [toUsers, hd]
  have hid : ∀ u ∈ resp.value, u.id = some (toUsers u).ID := by
    intro u hu
    have := (hall u hu).1
    cases hd : u.id with
    | none => exact absurd hd this
    | some n => simp [toUsers, hd]
  refine ⟨?_, resp.value.map toUsers, run_getUsers_ok h g c s resp hg hresp hall, by simp,
    by simpa using hlen, ?_, ?_⟩
  · have := run_GetUsers h g c s hg
    rw [this]
    unfold usersRequest at *
    rw [hresp]
  · rw [List.pairwise_map]
    refine hsorted.imp_of_mem ?_
    intro a b ha hb hab
    exact hab _ _ (hname a ha) (hname b hb)
  · intro i h1 h2
    have hmem : resp.value.get ⟨i, h1⟩ ∈ resp.value := List.get_mem _ _ _
    have hget : (resp.value.map toUsers).get ⟨i, h2⟩ = toUsers (resp.value.get ⟨i, h1⟩) := by
      simp
    rw [hget]
    exact ⟨hid _ hmem, hname _ hmem⟩

/-- Witness of C8: a directory of two users, sorted for the order of `String`. -/
theorem getUsers_honoured_request_witness :
    GetUsers (Host.answering (.ok "t") (.ok twoUsers) (.ok emptyPage) none) readyHelper
        (State.start [])
        = .ok (.ok twoUsers)
            { State.start [] with
              trace := [] ++ [.usersGet { select := ["displayName", "id", "mail"],
                                          top := some 25, orderby := ["displayName"] }] }
    ∧ ∃ users : List Users,
        getUsers (Host.answering (.ok "t") (.ok twoUsers) (.ok emptyPage) none) readyHelper
            (State.start [])
          = .ok (.ok users)
              { State.start [] with
                trace := [] ++ [.usersGet { select := ["displayName", "id", "mail"],
                                            top := some 25, orderby := ["displayName"] }] }
        ∧ users.length = twoUsers.value.length
        ∧ users.length ≤ 25
        ∧ users.Pairwise (fun a b => a.Name ≤ b.Name)
        ∧ ∀ (i : Nat) (h1 : i < twoUsers.value.length) (h2 : i < users.length),
            (twoUsers.value.get ⟨i, h1⟩).id = some (users.get ⟨i, h2⟩).ID
            ∧ (twoUsers.value.get ⟨i, h1⟩).displayName = some (users.get ⟨i, h2⟩).Name :=
  getUsers_honoured_request (Host.answering (.ok "t") (.ok twoUsers) (.ok emptyPage) none)
    readyHelper ⟨⟨⟨"set", "set", "set"⟩, defaultScopes⟩⟩ (State.start []) twoUsers (· ≤ ·) rfl rfl
    (by decide) (by decide)
    (by
      simp only [twoUsers, List.pairwise_cons, List.mem_singleton, List.not_mem_nil,
        List.Pairwise.nil, and_true]
      refine ⟨?_, by simp⟩
      intro b hb x y hx hy
      subst hb
      cases hx
      cases hy
      rw [String.le_iff_toList_le]
      decide)

/-! ## The user-selection loops -/

theorem listInboxLoop_reprompt (h : Host) (g : GraphHelper) (ident : String) (users : List Users)
    (fuel : Nat) (c0 : Int) (s : State)
    (hbad : nextInt s.stdin = none
      ∨ ∃ n, nextInt s.stdin = some n ∧ (n < 1 ∨ (users.length : Int) < n)) :
    listInboxLoop h g ident users (fuel + 1) c0 s
      = listInboxLoop h g ident users fuel ((nextInt s.stdin).getD (-1))
          { s with
            stdin := s.stdin.tail,
            out := s.out ++ inboxPrompt ident users
              ++ [ident ++ "Invalid choice! Please try again.\n"] } := by
  rcases hbad with hnone | ⟨n, hn, hrange⟩
  · simp [listInboxLoop, hnone, inboxPrompt]
  · have hcond : n > (users.length : Int) ∨ n < 1 := by omega
    simp [listInboxLoop, hn, inboxPrompt, hcond]

theorem listInboxLoop_proceed (h : Host) (g : GraphHelper) (ident : String) (users : List Users)
    (fuel : Nat) (c0 : Int) (s : State) (n : Int)
    (hn : nextInt s.stdin = some n) (h1 : 1 ≤ n) (h2 : n ≤ users.length) :
    ∃ u, users.get? (n - 1).toNat = some u ∧
      listInboxLoop h g ident users (fuel + 1) c0 s
        = showInbox h g ident u.ID
            { s with
              stdin := s.stdin.tail,
              out := s.out ++ inboxPrompt ident users ++ ["\n", "\n"] } := by
  obtain ⟨u, hu, hrun⟩ := run_index users n h1 h2
  refine ⟨u, hu, ?_⟩
  have hcond : ¬ (n > (users.length : Int) ∨ n < 1) := by omega
  simp [listInboxLoop, hn, inboxPrompt, hcond, hrun]

theorem sendMailLoop_reprompt (h : Host) (g : GraphHelper) (ident : String) (users : List Users)
    (fuel : Nat) (c0 : Int) (s : State)
    (hbad : nextInt s.stdin = none
      ∨ ∃ n, nextInt s.stdin = some n ∧ (n < 1 ∨ (users.length : Int) < n)) :
    sendMailLoop h g ident users (fuel + 1) c0 s
      = sendMailLoop h g ident users fuel ((nextInt s.stdin).getD (-1))
          { s with
            stdin := s.stdin.tail,
            out := s.out ++ sendPrompt ident users
              ++ [ident ++ "Invalid choice! Please try again.\n"] } := by
  rcases hbad with hnone | ⟨n, hn, hrange⟩
  · simp [sendMailLoop, hnone, sendPrompt]
  · have hcond : n > (users.length : Int) ∨ n < 1 := by omega
    simp [sendMailLoop, hn, sendPrompt, hcond]

theorem sendMailLoop_proceed (h : Host) (g : GraphHelper) (ident : String) (users : List Users)
    (fuel : Nat) (c0 : Int) (s : State) (n : Int)
    (hn : nextInt s.stdin = some n) (h1 : 1 ≤ n) (h2 : n ≤ users.length) :
    ∃ u, users.get? (n - 1).toNat = some u ∧
      sendMailLoop h g ident users (fuel + 1) c0 s
        = submitMail h g ident u.ID (nextStr s.stdin.tail) (nextStr s.stdin.tail.tail)
            (nextStr s.stdin.tail.tail.tail)
            { s with
              stdin := s.stdin.tail.tail.tail.tail,
              out := s.out ++ sendPrompt ident users ++ mailQuestions ident ++ ["\n", "\n"] } := by
  obtain ⟨u, hu, hrun⟩ := run_index users n h1 h2
  refine ⟨u, hu, ?_⟩
  have hcond : ¬ (n > (users.length : Int) ∨ n < 1) := by omega
  simp [sendMailLoop, hn, sendPrompt, mailQuestions, hcond, hrun]

/-- C4: in an iteration of the loop of `listInbox` and of `sendMail`, for every
list of users and every pending input: when the read fails, or the choice is
less than 1 or greater than `len(users)`, the iteration prints the
invalid-choice line and the loop starts its next iteration with the trace of
requests unchanged; otherwise `users[choice-1]` exists and the iteration goes
on with the `GetInbox` call, respectively the `SendMail` call, for the ID of
that user. -/
theorem user_selection_step (h : Host) (g : GraphHelper) (ident : String) (users : List Users)
    (fuel : Nat) (c0 : Int) (s : State) :
    ((nextInt s.stdin = none
        ∨ ∃ n, nextInt s.stdin = some n ∧ (n < 1 ∨ (users.length : Int) < n)) →
      listInboxLoop h g ident users (fuel + 1) c0 s
        = listInboxLoop h g ident users fuel ((nextInt s.stdin).getD (-1))
            { stdin := s.stdin.tail,
              out := s.out ++ inboxPrompt ident users
                ++ [ident ++ "Invalid choice! Please try again.\n"],
              log := s.log, trace := s.trace }
      ∧ sendMailLoop h g ident users (fuel + 1) c0 s
        = sendMailLoop h g ident users fuel ((nextInt s.stdin).getD (-1))
            { stdin := s.stdin.tail,
              out := s.out ++ sendPrompt ident users
                ++ [ident ++ "Invalid choice! Please try again.\n"],
              log := s.log, trace := s.trace })
    ∧ (∀ n : Int, nextInt s.stdin = some n → 1 ≤ n → n ≤ users.length →
        ∃ u, users.get? (n - 1).toNat = some u
          ∧ listInboxLoop h g ident users (fuel + 1) c0 s
            = showInbox h g ident u.ID
                { stdin := s.stdin.tail,
                  out := s.out ++ inboxPrompt ident users ++ ["\n", "\n"],
                  log := s.log, trace := s.trace }
          ∧ sendMailLoop h g ident users (fuel + 1) c0 s
            = submitMail h g ident u.ID (nextStr s.stdin.tail) (nextStr s.stdin.tail.tail)
                (nextStr s.stdin.tail.tail.tail)
                { stdin := s.stdin.tail.tail.tail.tail,
                  out := s.out ++ sendPrompt ident users ++ mailQuestions ident ++ ["\n", "\n"],
                  log := s.log, trace := s.trace }) := by
  refine ⟨fun hbad => ⟨listInboxLoop_reprompt h g ident users fuel c0 s hbad,
    sendMailLoop_reprompt h g ident users fuel c0 s hbad⟩, ?_⟩
  intro n hn h1 h2
  obtain ⟨u, hu, hrun⟩ := listInboxLoop_proceed h g ident users fuel c0 s n hn h1 h2
  obtain ⟨v, hv, hrun2⟩ := sendMailLoop_proceed h g ident users fuel c0 s n hn h1 h2
  have huv : u = v := by
    rw [hu] at hv
    exact Option.some.inj hv
  subst huv
  exact ⟨u, hu, hrun, hrun2⟩

/-- Witness of C4: with two users listed, the choice 3 re-prompts and the
choice 2 proceeds with the second user. -/
theorem user_selection_step_witness :
    (listInboxLoop (Host.answering (.ok "t") (.ok twoUsers) (.ok emptyPage) none) readyHelper
        "    " (twoUsers.value.map toUsers) 2 (-1) (State.start [⟨some 3, "3"⟩, ⟨some 2, "2"⟩])
      = listInboxLoop (Host.answering (.ok "t") (.ok twoUsers) (.ok emptyPage) none) readyHelper
          "    " (twoUsers.value.map toUsers) 1 3
          { stdin := [⟨some 2, "2"⟩],
            out := [] ++ inboxPrompt "    " (twoUsers.value.map toUsers)
              ++ ["    " ++ "Invalid choice! Please try again.\n"],
            log := [], trace := [] })
    ∧ ∃ u, (twoUsers.value.map toUsers).get? ((2 : Int) - 1).toNat = some u
        ∧ u.ID = "id-2"
        ∧ sendMailLoop (Host.answering (.ok "t") (.ok twoUsers) (.ok emptyPage) none) readyHelper
            "    " (twoUsers.value.map toUsers) 1 (-1)
            (State.start [⟨some 2, "2"⟩, ⟨none, "Test"⟩, ⟨none, "Body"⟩, ⟨none, "a@example.com"⟩])
          = submitMail (Host.answering (.ok "t") (.ok twoUsers) (.ok emptyPage) none) readyHelper
              "    " u.ID "Test" "Body" "a@example.com"
              { stdin := [],
                out := [] ++ sendPrompt "    " (twoUsers.value.map toUsers)
                  ++ mailQuestions "    " ++ ["\n", "\n"],
                log := [], trace := [] } := by
  refine ⟨((user_selection_step (Host.answering (.ok "t") (.ok twoUsers) (.ok emptyPage) none)
      readyHelper "    " (twoUsers.value.map toUsers) 1 (-1)
      (State.start [⟨some 3, "3"⟩, ⟨some 2, "2"⟩])).1
      (Or.inr ⟨3, rfl, Or.inr (by decide)⟩)).1, ?_⟩
  obtain ⟨u, hu, -, hsend⟩ :=
    (user_selection_step (Host.answering (.ok "t") (.ok twoUsers) (.ok emptyPage) none)
      readyHelper "    " (twoUsers.value.map toUsers) 0 (-1)
      (State.start [⟨some 2, "2"⟩, ⟨none, "Test"⟩, ⟨none, "Body"⟩, ⟨none, "a@example.com"⟩])).2
      2 rfl (by decide) (by decide)
  refine ⟨u, hu, ?_, hsend⟩
  have hu2 : some u = some (⟨"id-2", "Bob", "NO EMAIL"⟩ : Users) := by
    rw [← hu]
    rfl
  rw [Option.some.inj hu2]

/-! ## Reading an inbox -/

theorem run_printMessages (h : Host) (ident : String) (location : Location)
    (msgs : List Message) (blocks : List (List String))
    (hblocks : List.Forall₂ (fun m b => messageBlock h ident location m = some b) msgs blocks) :
    ∀ s : State,
      printMessages h ident location msgs s = .ok () { s with out := s.out ++ blocks.flatten } := by
  induction hblocks with
  | nil => intro s; simp [printMessages]
  | @cons m b msgs blocks hb _ ih =>
    intro s
    obtain ⟨subject, body, toRecipients, sender, isRead, received⟩ := m
    unfold messageBlock at hb
    split at hb
    · next subj name addr rd rc hs hf hr hc =>
      simp only at hs hf hr hc
      subst hs hf hr hc
      cases hb
      cases rd <;> simp [printMessages, ih]
    · cases hb

theorem run_showInbox_ok (h : Host) (g : GraphHelper) (c : GraphServiceClient) (ident : String)
    (userID : String) (s : State) (resp : MessageCollectionResponse)
    (blocks : List (List String)) (hg : g.client = some c)
    (hresp : h.messagesGet (s.trace ++ [inboxRequest userID]) = .ok resp)
    (hblocks : List.Forall₂ (fun m b => messageBlock h ident .localZone m = some b)
      resp.value blocks) :
    showInbox h g ident userID s
      = .ok () { s with
          out := s.out ++ blocks.flatten ++ pageFooter ident resp,
          trace := s.trace ++ [inboxRequest userID] } := by
  have hprint := run_printMessages h ident .localZone resp.value blocks hblocks
  cases hlink : resp.odataNextLink <;>
    simp [showInbox, run_bind, run_GetInbox h g c userID s hg, hresp, LoadLocation, hprint,
      pageFooter, hlink] <;> rfl

theorem run_showInbox_error (h : Host) (g : GraphHelper) (c : GraphServiceClient)
    (ident : String) (userID : String) (s : State) (e : Error) (hg : g.client = some c)
    (hresp : h.messagesGet (s.trace ++ [inboxRequest userID]) = .error e) :
    showInbox h g ident userID s
      = .ok () { s with
          out := s.out ++ [ident ++ "Error getting user's inbox: " ++ e ++ "\n"],
          trace := s.trace ++ [inboxRequest userID] } := by
  simp [showInbox, run_bind, run_GetInbox h g c userID s hg, hresp]

theorem run_submitMail (h : Host) (g : GraphHelper) (c : GraphServiceClient) (ident : String)
    (userID subject body recipient : String) (s : State) (hg : g.client = some c) :
    submitMail h g ident userID subject body recipient s
      = .ok () { s with
          out := s.out ++
            [match h.sendMailPost
                (s.trace ++ [sendMailRequest userID (some subject) (some body) (some recipient)])
              with
              | some e => ident ++ "Error sending mail: " ++ e ++ "\n"
              | none => ident ++ "Mail successfully sent!\n"],
          trace := s.trace
            ++ [sendMailRequest userID (some subject) (some body) (some recipient)] } := by
  cases hsend : h.sendMailPost
      (s.trace ++ [sendMailRequest userID (some subject) (some body) (some recipient)]) <;>
    simp [submitMail, run_bind, run_SendMail h g c userID _ _ _ s hg, hsend]

/-- C9 fails as stated: for a successful response whose only message has no
sender, `listInbox` prints the subject line of the message and then panics on
the nil sender; it prints no complete block and no report on further pages. -/
theorem listInbox_absent_sender_panics :
    listInbox (Host.answering (.ok "t") (.ok twoUsers) (.ok pageWithoutSender) none) readyHelper
        "    " 1 (State.start [⟨some 1, "1"⟩])
      = .panic .nilDereference
          { stdin := [],
            out := inboxPrompt "    " (twoUsers.value.map toUsers)
              ++ ["\n", "\n", "    Message: Draft\n"],
            log := [],
            trace := [usersRequest, inboxRequest "id-1"] } := by
  decide!

/-- C9, amended: when the user list is fetched, a listed user is chosen and
the inbox request succeeds with a response in which every message carries a
subject, a sender with a name, a read flag and a reception time, `listInbox`
returns normally, having printed after the prompt one block per message in
response order and then the report `More messages available?`, `true` if and
only if the response carries a next-page link, and having issued the inbox
request and no request after it; in particular a response with zero messages
and no next-page link prints no block and reports `false`. -/
theorem listInbox_prints_page (h : Host) (g : GraphHelper) (c : GraphServiceClient)
    (ident : String) (fuel : Nat) (s0 s : State) (users : List Users) (n : Int) (u : Users)
    (resp : MessageCollectionResponse) (blocks : List (List String))
    (hg : g.client = some c)
    (husers : getUsers h g s0 = .ok (.ok users) s)
    (hn : nextInt s.stdin = some n) (h1 : 1 ≤ n) (h2 : n ≤ users.length)
    (hu : users.get? (n - 1).toNat = some u)
    (hresp : h.messagesGet (s.trace ++ [inboxRequest u.ID]) = .ok resp)
    (hblocks : List.Forall₂ (fun m b => messageBlock h ident .localZone m = some b)
      resp.value blocks) :
    listInbox h g ident (fuel + 1) s0
        = .ok ()
            { stdin := s.stdin.tail,
              out := s.out ++ inboxPrompt ident users ++ ["\n", "\n"] ++ blocks.flatten
                ++ ["\n",
                    ident ++ "More messages available? "
                      ++ (if resp.odataNextLink = none then "false" else "true") ++ "\n",
                    "\n"],
              log := s.log,
              trace := s.trace ++ [inboxRequest u.ID] }
    ∧ (resp.value = [] → resp.odataNextLink = none →
        listInbox h g ident (fuel + 1) s0
          = .ok ()
              { stdin := s.stdin.tail,
                out := s.out ++ inboxPrompt ident users ++ ["\n", "\n"]
                  ++ ["\n", ident ++ "More messages available? " ++ "false" ++ "\n", "\n"],
                log := s.log,
                trace := s.trace ++ [inboxRequest u.ID] }) := by
  obtain ⟨v, hv, hloop⟩ := listInboxLoop_proceed h g ident users fuel (-1) s n hn h1 h2
  have huv : v = u := by
    rw [hu] at hv
    exact (Option.some.inj hv).symm
  subst huv
  have hmain : listInbox h g ident (fuel + 1) s0
      = .ok ()
          { stdin := s.stdin.tail,
            out := s.out ++ inboxPrompt ident users ++ ["\n", "\n"] ++ blocks.flatten
              ++ pageFooter ident resp,
            log := s.log,
            trace := s.trace ++ [inboxRequest v.ID] } := by
    unfold listInbox
    rw [run_bind, husers]
    show listInboxLoop h g ident users (fuel + 1) (-1) s = _
    have hshow := run_showInbox_ok h g c ident v.ID
      { stdin := s.stdin.tail, out := s.out ++ inboxPrompt ident users ++ ["\n", "\n"],
        log := s.log, trace := s.trace } resp blocks hg hresp hblocks
    rw [hloop, hshow]
  refine ⟨hmain, ?_⟩
  intro hempty hlink
  rw [hmain]
  have hb : blocks = [] := by
    rw [hempty] at hblocks
    cases hblocks
    rfl
  simp [hb, pageFooter, hlink]

/-- Witness of the amended C9: the first of two users is chosen and the page
holds one unread message and a next-page link. -/
theorem listInbox_prints_page_witness :
    listInbox (Host.answering (.ok "t") (.ok twoUsers) (.ok onePage) none) readyHelper "    " 1
        (State.start [⟨some 1, "1"⟩])
      = .ok ()
          { stdin := [],
            out := [] ++ inboxPrompt "    " (twoUsers.value.map toUsers) ++ ["\n", "\n"]
              ++ [["    Message: Hello\n", "      From: Ann\n", "      Status: Unread\n",
                   "      Received: 42\n"]].flatten
              ++ ["\n", "    " ++ "More messages available? " ++ "true" ++ "\n", "\n"],
            log := [],
            trace := [usersRequest] ++ [inboxRequest "id-1"] } :=
  (listInbox_prints_page (Host.answering (.ok "t") (.ok twoUsers) (.ok onePage) none) readyHelper
    ⟨⟨⟨"set", "set", "set"⟩, defaultScopes⟩⟩ "    " 0 (State.start [⟨some 1, "1"⟩])
    { State.start [⟨some 1, "1"⟩] with trace := [usersRequest] }
    (twoUsers.value.map toUsers) 1 ⟨"id-1", "Ann", "ann@example.com"⟩ onePage
    [["    Message: Hello\n", "      From: Ann\n", "      Status: Unread\n",
      "      Received: 42\n"]]
    rfl rfl rfl (by decide) (by decide) rfl rfl
    (List.Forall₂.cons rfl List.Forall₂.nil)).1

/-! ## Start-up -/

theorem InitializeGraphForAppAuth_error_iff (h : Host) (g : GraphHelper) :
    (InitializeGraphForAppAuth h g).2 ≠ none ↔
      (h.newClientSecretCredential (h.getenv "TENANT_ID") (h.getenv "CLIENT_ID")
          (h.getenv "SECRET") ≠ none
        ∨ h.newAuthProvider ⟨h.getenv "TENANT_ID", h.getenv "CLIENT_ID", h.getenv "SECRET"⟩
            defaultScopes ≠ none
        ∨ h.newRequestAdapter
            ⟨⟨h.getenv "TENANT_ID", h.getenv "CLIENT_ID", h.getenv "SECRET"⟩, defaultScopes⟩
            ≠ none) := by
  simp only [InitializeGraphForAppAuth]
  cases h1 : h.newClientSecretCredential (h.getenv "TENANT_ID") (h.getenv "CLIENT_ID")
      (h.getenv "SECRET") with
  | some e => simp
  | none =>
    cases h2 : h.newAuthProvider ⟨h.getenv "TENANT_ID", h.getenv "CLIENT_ID", h.getenv "SECRET"⟩
        defaultScopes with
    | some e => simp
    | none =>
      cases h3 : h.newRequestAdapter
          ⟨⟨h.getenv "TENANT_ID", h.getenv "CLIENT_ID", h.getenv "SECRET"⟩, defaultScopes⟩ with
      | some e => simp
      | none => simp

theorem run_initializeGraph_error (h : Host) (g : GraphHelper) (e : Error) (s : State)
    (he : (InitializeGraphForAppAuth h g).2 = some e) :
    initializeGraph h g s
      = .panic (.explicit ("Error initializing Graph for app auth: " ++ e ++ "\n"))
          { s with log := s.log ++ ["Error initializing Graph for app auth: " ++ e ++ "\n"] } := by
  unfold initializeGraph
  generalize InitializeGraphForAppAuth h g = r at he
  obtain ⟨g1, err⟩ := r
  simp only at he
  subst he
  rfl

theorem initializeGraph_ok_initialised (h : Host) (g0 g : GraphHelper) (s s1 : State)
    (hrun : initializeGraph h g0 s = .ok g s1) :
    s1 = s ∧ ∃ cred c, g.clientSecretCredential = some cred ∧ g.client = some c := by
  unfold initializeGraph at hrun
  simp only [InitializeGraphForAppAuth] at hrun
  cases h1 : h.newClientSecretCredential (h.getenv "TENANT_ID") (h.getenv "CLIENT_ID")
      (h.getenv "SECRET") with
  | some e => simp [h1] at hrun
  | none =>
    cases h2 : h.newAuthProvider ⟨h.getenv "TENANT_ID", h.getenv "CLIENT_ID", h.getenv "SECRET"⟩
        defaultScopes with
    | some e => simp [h1, h2] at hrun
    | none =>
      cases h3 : h.newRequestAdapter
          ⟨⟨h.getenv "TENANT_ID", h.getenv "CLIENT_ID", h.getenv "SECRET"⟩, defaultScopes⟩ with
      | some e => simp [h1, h2, h3] at hrun
      | none =>
        simp [h1, h2, h3] at hrun
        obtain ⟨hg, hs⟩ := hrun
        subst hg
        exact ⟨hs.symm, _, _, rfl, rfl⟩

/-- C5 fails as stated: with `CLIENT_ID` unset, and `SECRET` and `TENANT_ID`
set, on a host whose credential constructor refuses an empty secret and an
empty tenant ID and does not inspect the client ID,
`InitializeGraphForAppAuth` returns no error and `main` enters the menu loop:
it prints the menu, reads the selection 0 and exits normally. -/
theorem unset_client_id_reaches_menu :
    hostWithoutClientID.getenv "CLIENT_ID" = ""
    ∧ (InitializeGraphForAppAuth hostWithoutClientID NewGraphHelper).2 = none
    ∧ main hostWithoutClientID 1 (State.start [⟨some 0, "0"⟩])
        = .ok () { stdin := [], out := menuLines ++ ["Goodbye...\n"], log := [], trace := [] } := by
  decide!

/-- C5, amended: `InitializeGraphForAppAuth` makes no check of its own; on
every host whose credential constructor refuses an empty secret and refuses an
empty tenant ID, it returns an error for every environment in which `SECRET`
or `TENANT_ID` is unset or empty (an unset `CLIENT_ID` alone need not be
refused); and on every host, whenever it returns an error, `initializeGraph`
panics with that error and `main` panics before the menu loop, for every fuel:
nothing is printed, read or requested. -/
theorem initialization_failure_aborts (h : Host) (fuel : Nat) (s : State) :
    ((∀ tenantID clientID : String, h.newClientSecretCredential tenantID clientID "" ≠ none) →
      (∀ clientID clientSecret : String,
        h.newClientSecretCredential "" clientID clientSecret ≠ none) →
      (h.getenv "SECRET" = "" ∨ h.getenv "TENANT_ID" = "") →
      (InitializeGraphForAppAuth h NewGraphHelper).2 ≠ none)
    ∧ (∀ e : Error, (InitializeGraphForAppAuth h NewGraphHelper).2 = some e →
        initializeGraph h NewGraphHelper s
          = .panic (.explicit ("Error initializing Graph for app auth: " ++ e ++ "\n"))
              { s with log := s.log ++ ["Error initializing Graph for app auth: " ++ e ++ "\n"] }
        ∧ ∃ p s1, main h fuel s = .panic p s1
            ∧ s1.out = s.out ∧ s1.stdin = s.stdin ∧ s1.trace = s.trace) := by
  constructor
  · intro hsecret htenant henv
    rw [InitializeGraphForAppAuth_error_iff]
    left
    rcases henv with hs | ht
    · rw [hs]
      exact hsecret _ _
    · rw [ht]
      exact htenant _ _
  · intro e he
    have hinit := run_initializeGraph_error h NewGraphHelper e s he
    refine ⟨hinit, ?_⟩
    unfold main
    cases hw : h.writeFile with
    | some e1 => exact ⟨_, s, rfl, rfl, rfl, rfl⟩
    | none =>
      cases hd : h.dotenvLoad with
      | some e2 => exact ⟨_, s, rfl, rfl, rfl, rfl⟩
      | none =>
        refine ⟨.explicit ("Error initializing Graph for app auth: " ++ e ++ "\n"),
          { s with log := s.log ++ ["Error initializing Graph for app auth: " ++ e ++ "\n"] },
          ?_, rfl, rfl, rfl⟩
        show (initializeGraph h NewGraphHelper >>= fun graph => mainLoop h graph fuel (-1)) s = _
        rw [run_bind, hinit]

/-- Witness of the amended C5: with `SECRET` unset the initialisation fails
and `main` panics before the menu, even with no fuel for the loop. -/
theorem initialization_failure_aborts_witness :
    (InitializeGraphForAppAuth hostWithoutSecret NewGraphHelper).2 ≠ none
    ∧ initializeGraph hostWithoutSecret NewGraphHelper (State.start [⟨some 0, "0"⟩])
        = .panic
            (.explicit ("Error initializing Graph for app auth: " ++ "empty secret" ++ "\n"))
            { State.start [⟨some 0, "0"⟩] with
              log := [] ++ ["Error initializing Graph for app auth: " ++ "empty secret" ++ "\n"] }
    ∧ ∃ p s1, main hostWithoutSecret 0 (State.start [⟨some 0, "0"⟩]) = .panic p s1
        ∧ s1.out = [] ∧ s1.stdin = [⟨some 0, "0"⟩] ∧ s1.trace = [] :=
  ⟨(initialization_failure_aborts hostWithoutSecret 0 (State.start [⟨some 0, "0"⟩])).1
      (fun tenantID clientID => by simp [hostWithoutSecret, refuseEmptySecretOrTenant])
      (fun clientID clientSecret => by
        by_cases hs : clientSecret = "" <;>
          simp [hostWithoutSecret, refuseEmptySecretOrTenant, hs])
      (Or.inl rfl),
   (initialization_failure_aborts hostWithoutSecret 0 (State.start [⟨some 0, "0"⟩])).2
      "empty secret" rfl⟩

/-! ## The main loop -/

theorem run_mainIteration (h : Host) (g : GraphHelper) (fuel : Nat) (c0 : Int) (s : State) :
    mainIteration h g fuel c0 s
      = (dispatch h g fuel ((nextInt s.stdin).getD (-1)) >>= fun _ =>
          Prog.pure ((nextInt s.stdin).getD (-1)))
          { s with stdin := s.stdin.tail, out := s.out ++ menuLines } := by
  cases hn : nextInt s.stdin <;> simp [mainIteration, hn]

theorem mainLoop_succ (h : Host) (g : GraphHelper) (fuel : Nat) (c0 : Int) (s : State) :
    mainLoop h g (fuel + 1) c0 s
      = match mainIteration h g fuel c0 s with
        | .ok c s2 => if c = 0 then .ok () s2 else mainLoop h g fuel c s2
        | .panic p s2 => .panic p s2
        | .outOfFuel => .outOfFuel := by
  simp only [mainLoop, run_bind]
  cases mainIteration h g fuel c0 s with
  | ok c s2 => by_cases hc : c = 0 <;> simp [hc]
  | panic p s2 => rfl
  | outOfFuel => rfl

theorem mainLoop_of_dispatch_ok (h : Host) (g : GraphHelper) (fuel : Nat) (c0 k : Int)
    (s s2 : State) (hk : nextInt s.stdin = some k)
    (hrun : dispatch h g fuel k { s with stdin := s.stdin.tail, out := s.out ++ menuLines }
      = .ok () s2) :
    mainLoop h g (fuel + 1) c0 s = if k = 0 then .ok () s2 else mainLoop h g fuel k s2 := by
  rw [mainLoop_succ, run_mainIteration, hk]
  simp [run_bind, hrun]

theorem mainLoop_of_dispatch_panic (h : Host) (g : GraphHelper) (fuel : Nat) (c0 k : Int)
    (s s2 : State) (p : Panic) (hk : nextInt s.stdin = some k)
    (hrun : dispatch h g fuel k { s with stdin := s.stdin.tail, out := s.out ++ menuLines }
      = .panic p s2) :
    mainLoop h g (fuel + 1) c0 s = .panic p s2 := by
  rw [mainLoop_succ, run_mainIteration, hk]
  simp [run_bind, hrun]

/-- C3: in an iteration of the main loop in which the read of the selection
fails, or yields an integer below 0 or above 4, whatever the value `c0` left in
`choice` by earlier iterations: the iteration returns normally with a non-zero
`choice`, having consumed the input, printed the menu and the invalid-choice
line and nothing else, and left the log and the trace of requests unchanged;
and the loop goes on: its next iteration prints the menu again, reads the next
selection and dispatches on it, and the loop with two units of fuel is that
next iteration followed by the closing test, so that a next selection 0 ends
the run normally after the second menu and the goodbye line. -/
theorem invalid_selection_reprompts (h : Host) (g : GraphHelper) (fuel : Nat) (c0 : Int)
    (s : State)
    (hbad : nextInt s.stdin = none ∨ ∃ n, nextInt s.stdin = some n ∧ (n < 0 ∨ 4 < n)) :
    (nextInt s.stdin).getD (-1) ≠ 0
    ∧ mainIteration h g fuel c0 s
        = .ok ((nextInt s.stdin).getD (-1))
            { stdin := s.stdin.tail,
              out := s.out ++ menuLines ++ ["Invalid choice! Please try again.\n"],
              log := s.log, trace := s.trace }
    ∧ mainLoop h g (fuel + 1) c0 s
        = mainLoop h g fuel ((nextInt s.stdin).getD (-1))
            { stdin := s.stdin.tail,
              out := s.out ++ menuLines ++ ["Invalid choice! Please try again.\n"],
              log := s.log, trace := s.trace }
    ∧ mainIteration h g fuel ((nextInt s.stdin).getD (-1))
          { stdin := s.stdin.tail,
            out := s.out ++ menuLines ++ ["Invalid choice! Please try again.\n"],
            log := s.log, trace := s.trace }
        = (dispatch h g fuel ((nextInt s.stdin.tail).getD (-1)) >>= fun _ =>
            Prog.pure ((nextInt s.stdin.tail).getD (-1)))
            { stdin := s.stdin.tail.tail,
              out := s.out ++ menuLines ++ ["Invalid choice! Please try again.\n"] ++ menuLines,
              log := s.log, trace := s.trace }
    ∧ mainLoop h g (fuel + 2) c0 s
        = (match mainIteration h g fuel ((nextInt s.stdin).getD (-1))
              { stdin := s.stdin.tail,
                out := s.out ++ menuLines ++ ["Invalid choice! Please try again.\n"],
                log := s.log, trace := s.trace } with
            | .ok c2 s2 => if c2 = 0 then .ok () s2 else mainLoop h g fuel c2 s2
            | .panic p s2 => .panic p s2
            | .outOfFuel => .outOfFuel)
    ∧ ((nextInt s.stdin.tail).getD (-1) = 0 →
        mainLoop h g (fuel + 2) c0 s
          = .ok ()
              { stdin := s.stdin.tail.tail,
                out := s.out ++ menuLines ++ ["Invalid choice! Please try again.\n"]
                  ++ menuLines ++ ["Goodbye...\n"],
                log := s.log, trace := s.trace }) := by
  have hrange : (nextInt s.stdin).getD (-1) < 0 ∨ 4 < (nextInt s.stdin).getD (-1) := by
    rcases hbad with hnone | ⟨n, hn, hr⟩
    · left
      rw [hnone]
      decide
    · rw [hn]
      exact hr
  obtain ⟨c, hc⟩ : ∃ c, (nextInt s.stdin).getD (-1) = c := ⟨_, rfl⟩
  rw [hc] at hrange ⊢
  have h0 : ¬ c = 0 := by omega
  have h1 : ¬ c = 1 := by omega
  have h2 : ¬ c = 2 := by omega
  have h3 : ¬ c = 3 := by omega
  have h4 : ¬ c = 4 := by omega
  have hiter : ∀ f : Nat,
      mainIteration h g f c0 s
        = .ok c { stdin := s.stdin.tail,
                  out := s.out ++ menuLines ++ ["Invalid choice! Please try again.\n"],
                  log := s.log, trace := s.trace } := by
    intro f
    rw [run_mainIteration, hc]
    simp [dispatch, h0, h1, h2, h3, h4, run_bind]
  have hloop : ∀ f : Nat,
      mainLoop h g (f + 1) c0 s
        = mainLoop h g f c
            { stdin := s.stdin.tail,
              out := s.out ++ menuLines ++ ["Invalid choice! Please try again.\n"],
              log := s.log, trace := s.trace } := by
    intro f
    rw [mainLoop_succ, hiter]
    simp [h0]
  have hnext := run_mainIteration h g fuel c
    { stdin := s.stdin.tail,
      out := s.out ++ menuLines ++ ["Invalid choice! Please try again.\n"],
      log := s.log, trace := s.trace }
  refine ⟨h0, hiter fuel, hloop fuel, hnext, ?_, ?_⟩
  · rw [hloop (fuel + 1), mainLoop_succ]
  · intro hsel
    rw [hloop (fuel + 1), mainLoop_succ, hnext]
    simp only [hsel]
    simp [dispatch, run_bind]

/-- Witness of C3: the input `abc`, unreadable as an integer, after an earlier
selection 3: the iteration prints the invalid-choice line, and the loop prints
the menu again, reads the selection 0 and ends. -/
theorem invalid_selection_reprompts_witness :
    mainIteration (Host.answering (.ok "t") (.ok twoUsers) (.ok emptyPage) none) readyHelper 0 3
        (State.start [⟨none, "abc"⟩, ⟨some 0, "0"⟩])
      = .ok (-1) { stdin := [⟨some 0, "0"⟩],
                   out := [] ++ menuLines ++ ["Invalid choice! Please try again.\n"],
                   log := [], trace := [] }
    ∧ mainLoop (Host.answering (.ok "t") (.ok twoUsers) (.ok emptyPage) none) readyHelper 2 3
        (State.start [⟨none, "abc"⟩, ⟨some 0, "0"⟩])
      = .ok () { stdin := [],
                 out := [] ++ menuLines ++ ["Invalid choice! Please try again.\n"]
                   ++ menuLines ++ ["Goodbye...\n"],
                 log := [], trace := [] } :=
  ⟨(invalid_selection_reprompts (Host.answering (.ok "t") (.ok twoUsers) (.ok emptyPage) none)
      readyHelper 0 3 (State.start [⟨none, "abc"⟩, ⟨some 0, "0"⟩]) (Or.inl rfl)).2.1,
   (invalid_selection_reprompts (Host.answering (.ok "t") (.ok twoUsers) (.ok emptyPage) none)
      readyHelper 0 3 (State.start [⟨none, "abc"⟩, ⟨some 0, "0"⟩]) (Or.inl rfl)).2.2.2.2.2 rfl⟩

/-- C6: an iteration of the main loop prints the menu, reads the selection
(-1 when the read fails) and dispatches on it: 0 prints the goodbye line, 1 runs
`displayAccessToken`, 2 runs `getUsers` then `listUsers` (or panics on its
error), 3 runs `listInbox` and 4 runs `sendMail`; when the iteration returns,
the value of `choice` is the selection, and the loop ends there if the
selection is 0 and starts its next iteration if it is not. -/
theorem main_loop_dispatch (h : Host) (g : GraphHelper) (fuel : Nat) (c0 : Int) (s : State) :
    mainIteration h g fuel c0 s
        = (dispatch h g fuel ((nextInt s.stdin).getD (-1)) >>= fun _ =>
            Prog.pure ((nextInt s.stdin).getD (-1)))
            { stdin := s.stdin.tail, out := s.out ++ menuLines, log := s.log, trace := s.trace }
    ∧ dispatch h g fuel 0 = println "Goodbye..."
    ∧ dispatch h g fuel 1 = displayAccessToken h g
    ∧ dispatch h g fuel 2
        = (getUsers h g >>= fun r =>
            match r with
            | .error err => logPanic err
            | .ok users => listUsers users "")
    ∧ dispatch h g fuel 3 = listInbox h g "    " fuel
    ∧ dispatch h g fuel 4 = sendMail h g "    " fuel
    ∧ ((nextInt s.stdin).getD (-1) = 0 →
        mainLoop h g (fuel + 1) c0 s
          = .ok () { stdin := s.stdin.tail, out := s.out ++ menuLines ++ ["Goodbye...\n"],
                     log := s.log, trace := s.trace })
    ∧ (∀ (c : Int) (s2 : State), mainIteration h g fuel c0 s = .ok c s2 →
        c = (nextInt s.stdin).getD (-1)
        ∧ (c = 0 → mainLoop h g (fuel + 1) c0 s = .ok () s2)
        ∧ (c ≠ 0 → mainLoop h g (fuel + 1) c0 s = mainLoop h g fuel c s2)) := by
  refine ⟨run_mainIteration h g fuel c0 s, rfl, rfl, rfl, rfl, rfl, ?_, ?_⟩
  · intro hsel
    rw [mainLoop_succ, run_mainIteration, hsel]
    simp [dispatch, run_bind]
  · intro c s2 hiter
    have hc : c = (nextInt s.stdin).getD (-1) := by
      rw [run_mainIteration, run_bind] at hiter
      cases hd : dispatch h g fuel ((nextInt s.stdin).getD (-1))
          { s with stdin := s.stdin.tail, out := s.out ++ menuLines } with
      | ok a s3 =>
        rw [hd] at hiter
        simp only [run_pure] at hiter
        injection hiter with h1 _
        exact h1.symm
      | panic p s3 =>
        rw [hd] at hiter
        cases hiter
      | outOfFuel =>
        rw [hd] at hiter
        cases hiter
    refine ⟨hc, ?_, ?_⟩
    · intro h0
      rw [mainLoop_succ, hiter]
      simp [h0]
    · intro h0
      rw [mainLoop_succ, hiter]
      simp [h0]

/-- Witness of C6: the selection 0 ends the loop after the goodbye line. -/
theorem main_loop_dispatch_witness :
    mainLoop (Host.answering (.ok "t") (.ok twoUsers) (.ok emptyPage) none) readyHelper 1 (-1)
        (State.start [⟨some 0, "0"⟩, ⟨some 1, "1"⟩])
      = .ok () { stdin := [⟨some 1, "1"⟩], out := [] ++ menuLines ++ ["Goodbye...\n"],
                 log := [], trace := [] } :=
  (main_loop_dispatch (Host.answering (.ok "t") (.ok twoUsers) (.ok emptyPage) none) readyHelper
    0 (-1) (State.start [⟨some 0, "0"⟩, ⟨some 1, "1"⟩])).2.2.2.2.2.2.1 rfl

/-! ## Errors of the remote side -/

theorem run_displayAccessToken_error (h : Host) (g : GraphHelper) (cred : Credential)
    (s : State) (e : Error) (hk : g.clientSecretCredential = some cred)
    (htok : h.getToken (s.trace ++ [.getToken defaultScopes]) = .error e) :
    displayAccessToken h g s
      = .panic (.explicit ("Error getting user token: " ++ e ++ "\n"))
          { s with
            log := s.log ++ ["Error getting user token: " ++ e ++ "\n"],
            trace := s.trace ++ [.getToken defaultScopes] } := by
  simp [displayAccessToken, GetAppToken, hk, htok]

theorem run_dispatch_users_error (h : Host) (g : GraphHelper) (c : GraphServiceClient)
    (fuel : Nat) (k : Int) (s : State) (e : Error) (hg : g.client = some c)
    (hk : k = 2 ∨ k = 3 ∨ k = 4)
    (hresp : h.usersGet (s.trace ++ [usersRequest]) = .error e) :
    dispatch h g fuel k s
      = .panic (.explicit ("Error getting users: " ++ e))
          { s with
            log := s.log ++ ["Error getting users: " ++ e],
            trace := s.trace ++ [usersRequest] } := by
  have hget := run_getUsers_error h g c s e hg hresp
  rcases hk with rfl | rfl | rfl
  · simp [dispatch, run_bind, hget]
  · simp [dispatch, listInbox, run_bind, hget]
  · simp [dispatch, sendMail, run_bind, hget]

theorem run_listInbox_error (h : Host) (g : GraphHelper) (c : GraphServiceClient)
    (ident : String) (fuel : Nat) (s0 s : State) (users : List Users) (n : Int) (u : Users)
    (e : Error) (hg : g.client = some c)
    (husers : getUsers h g s0 = .ok (.ok users) s)
    (hn : nextInt s.stdin = some n) (h1 : 1 ≤ n) (h2 : n ≤ users.length)
    (hu : users.get? (n - 1).toNat = some u)
    (hresp : h.messagesGet (s.trace ++ [inboxRequest u.ID]) = .error e) :
    listInbox h g ident (fuel + 1) s0
      = .ok ()
          { stdin := s.stdin.tail,
            out := s.out ++ inboxPrompt ident users ++ ["\n", "\n"]
              ++ [ident ++ "Error getting user's inbox: " ++ e ++ "\n"],
            log := s.log,
            trace := s.trace ++ [inboxRequest u.ID] } := by
  obtain ⟨v, hv, hloop⟩ := listInboxLoop_proceed h g ident users fuel (-1) s n hn h1 h2
  have huv : v = u := by
    rw [hu] at hv
    exact (Option.some.inj hv).symm
  subst huv
  have hshow := run_showInbox_error h g c ident v.ID
    { stdin := s.stdin.tail, out := s.out ++ inboxPrompt ident users ++ ["\n", "\n"],
      log := s.log, trace := s.trace } e hg hresp
  unfold listInbox
  rw [run_bind, husers]
  show listInboxLoop h g ident users (fuel + 1) (-1) s = _
  rw [hloop, hshow]

theorem run_sendMail_error (h : Host) (g : GraphHelper) (c : GraphServiceClient)
    (ident : String) (fuel : Nat) (s0 s : State) (users : List Users) (n : Int) (u : Users)
    (e : Error) (hg : g.client = some c)
    (husers : getUsers h g s0 = .ok (.ok users) s)
    (hn : nextInt s.stdin = some n) (h1 : 1 ≤ n) (h2 : n ≤ users.length)
    (hu : users.get? (n - 1).toNat = some u)
    (hresp : h.sendMailPost
        (s.trace ++ [sendMailRequest u.ID (some (nextStr s.stdin.tail))
          (some (nextStr s.stdin.tail.tail)) (some (nextStr s.stdin.tail.tail.tail))])
      = some e) :
    sendMail h g ident (fuel + 1) s0
      = .ok ()
          { stdin := s.stdin.tail.tail.tail.tail,
            out := s.out ++ sendPrompt ident users ++ mailQuestions ident ++ ["\n", "\n"]
              ++ [ident ++ "Error sending mail: " ++ e ++ "\n"],
            log := s.log,
            trace := s.trace ++ [sendMailRequest u.ID (some (nextStr s.stdin.tail))
              (some (nextStr s.stdin.tail.tail)) (some (nextStr s.stdin.tail.tail.tail))] } := by
  obtain ⟨v, hv, hloop⟩ := sendMailLoop_proceed h g ident users fuel (-1) s n hn h1 h2
  have huv : v = u := by
    rw [hu] at hv
    exact (Option.some.inj hv).symm
  subst huv
  have hsub := run_submitMail h g c ident v.ID (nextStr s.stdin.tail) (nextStr s.stdin.tail.tail)
    (nextStr s.stdin.tail.tail.tail)
    { stdin := s.stdin.tail.tail.tail.tail,
      out := s.out ++ sendPrompt ident users ++ mailQuestions ident ++ ["\n", "\n"],
      log := s.log, trace := s.trace } hg
  unfold sendMail
  rw [run_bind, husers]
  show sendMailLoop h g ident users (fuel + 1) (-1) s = _
  rw [hloop, hsub]
  simp only [hresp]

/-- C2 fails as stated: when the token request of `display token` returns an
error, `main` does not come back to the menu; it logs the error and panics,
with the selection 0 still unread. -/
theorem token_error_panics :
    main (Host.answering (.error "unauthorized") (.ok twoUsers) (.ok emptyPage) none) 2
        (State.start [⟨some 1, "1"⟩, ⟨some 0, "0"⟩])
      = .panic (.explicit "Error getting user token: unauthorized\n")
          { stdin := [⟨some 0, "0"⟩], out := menuLines,
            log := ["Error getting user token: unauthorized\n"],
            trace := [.getToken defaultScopes] } := by
  decide!

/-- C2, amended: with an initialised helper, in the main loop: if the
`GetInbox` call of `read inbox`, respectively the `SendMail` call of
`send mail`, returns an error, the workflow prints the error and the loop goes
on with its next iteration, without panic; if the token request of
`display token` returns an error, or the `GetUsers` request of `list users`,
`read inbox` or `send mail` does, the loop panics with that error, logged. -/
theorem api_error_outcomes (h : Host) (g : GraphHelper) (c : GraphServiceClient)
    (cred : Credential) (fuel : Nat) (c0 : Int) (s : State)
    (hg : g.client = some c) (hk : g.clientSecretCredential = some cred) :
    (∀ e : Error, nextInt s.stdin = some 1 →
      h.getToken (s.trace ++ [.getToken defaultScopes]) = .error e →
      mainLoop h g (fuel + 1) c0 s
        = .panic (.explicit ("Error getting user token: " ++ e ++ "\n"))
            { stdin := s.stdin.tail, out := s.out ++ menuLines,
              log := s.log ++ ["Error getting user token: " ++ e ++ "\n"],
              trace := s.trace ++ [.getToken defaultScopes] })
    ∧ (∀ (e : Error) (k : Int), nextInt s.stdin = some k → (k = 2 ∨ k = 3 ∨ k = 4) →
      h.usersGet (s.trace ++ [usersRequest]) = .error e →
      mainLoop h g (fuel + 1) c0 s
        = .panic (.explicit ("Error getting users: " ++ e))
            { stdin := s.stdin.tail, out := s.out ++ menuLines,
              log := s.log ++ ["Error getting users: " ++ e],
              trace := s.trace ++ [usersRequest] })
    ∧ (∀ (e : Error) (users : List Users) (s2 : State) (n : Int) (u : Users),
      nextInt s.stdin = some 3 →
      getUsers h g { stdin := s.stdin.tail, out := s.out ++ menuLines, log := s.log,
                     trace := s.trace } = .ok (.ok users) s2 →
      nextInt s2.stdin = some n → 1 ≤ n → n ≤ users.length →
      users.get? (n - 1).toNat = some u →
      h.messagesGet (s2.trace ++ [inboxRequest u.ID]) = .error e →
      mainLoop h g (fuel + 2) c0 s
        = mainLoop h g (fuel + 1) 3
            { stdin := s2.stdin.tail,
              out := s2.out ++ inboxPrompt "    " users ++ ["\n", "\n"]
                ++ ["    " ++ "Error getting user's inbox: " ++ e ++ "\n"],
              log := s2.log,
              trace := s2.trace ++ [inboxRequest u.ID] })
    ∧ (∀ (e : Error) (users : List Users) (s2 : State) (n : Int) (u : Users),
      nextInt s.stdin = some 4 →
      getUsers h g { stdin := s.stdin.tail, out := s.out ++ menuLines, log := s.log,
                     trace := s.trace } = .ok (.ok users) s2 →
      nextInt s2.stdin = some n → 1 ≤ n → n ≤ users.length →
      users.get? (n - 1).toNat = some u →
      h.sendMailPost
          (s2.trace ++ [sendMailRequest u.ID (some (nextStr s2.stdin.tail))
            (some (nextStr s2.stdin.tail.tail)) (some (nextStr s2.stdin.tail.tail.tail))])
        = some e →
      mainLoop h g (fuel + 2) c0 s
        = mainLoop h g (fuel + 1) 4
            { stdin := s2.stdin.tail.tail.tail.tail,
              out := s2.out ++ sendPrompt "    " users ++ mailQuestions "    " ++ ["\n", "\n"]
                ++ ["    " ++ "Error sending mail: " ++ e ++ "\n"],
              log := s2.log,
              trace := s2.trace ++ [sendMailRequest u.ID (some (nextStr s2.stdin.tail))
                (some (nextStr s2.stdin.tail.tail))
                (some (nextStr s2.stdin.tail.tail.tail))] }) := by
  refine ⟨?_, ?_, ?_, ?_⟩
  · intro e hsel htok
    refine mainLoop_of_dispatch_panic h g fuel c0 1 s _ _ hsel ?_
    have hd : dispatch h g fuel 1 = displayAccessToken h g := rfl
    rw [hd]
    exact run_displayAccessToken_error h g cred _ e hk htok
  · intro e k hsel hrange hresp
    refine mainLoop_of_dispatch_panic h g fuel c0 k s _ _ hsel ?_
    exact run_dispatch_users_error h g c fuel k _ e hg hrange hresp
  · intro e users s2 n u hsel husers hn h1 h2 hu hresp
    have hrun := run_listInbox_error h g c "    " fuel _ s2 users n u e hg husers hn h1 h2 hu hresp
    have hd : dispatch h g (fuel + 1) 3 = listInbox h g "    " (fuel + 1) := rfl
    have := mainLoop_of_dispatch_ok h g (fuel + 1) c0 3 s _ hsel (by rw [hd]; exact hrun)
    rw [this]
    simp
  · intro e users s2 n u hsel husers hn h1 h2 hu hresp
    have hrun := run_sendMail_error h g c "    " fuel _ s2 users n u e hg husers hn h1 h2 hu hresp
    have hd : dispatch h g (fuel + 1) 4 = sendMail h g "    " (fuel + 1) := rfl
    have := mainLoop_of_dispatch_ok h g (fuel + 1) c0 4 s _ hsel (by rw [hd]; exact hrun)
    rw [this]
    simp

/-- Witness of the amended C2: the four cases on hosts that refuse the token,
the user list, the inbox of the first user and a mail sent for the second. -/
theorem api_error_outcomes_witness :
    mainLoop refusingHost readyHelper 1 (-1) (State.start [⟨some 1, "1"⟩])
        = .panic (.explicit ("Error getting user token: " ++ "unauthorized" ++ "\n"))
            { stdin := [], out := [] ++ menuLines,
              log := [] ++ ["Error getting user token: " ++ "unauthorized" ++ "\n"],
              trace := [] ++ [.getToken defaultScopes] }
    ∧ mainLoop hostWithoutDirectory readyHelper 1 (-1) (State.start [⟨some 2, "2"⟩])
        = .panic (.explicit ("Error getting users: " ++ "forbidden"))
            { stdin := [], out := [] ++ menuLines,
              log := [] ++ ["Error getting users: " ++ "forbidden"],
              trace := [] ++ [usersRequest] }
    ∧ mainLoop refusingHost readyHelper 2 (-1) (State.start [⟨some 3, "3"⟩, ⟨some 1, "1"⟩])
        = mainLoop refusingHost readyHelper 1 3
            { stdin := [],
              out := ([] ++ menuLines) ++ inboxPrompt "    " (twoUsers.value.map toUsers)
                ++ ["\n", "\n"]
                ++ ["    " ++ "Error getting user's inbox: " ++ "mailbox not found" ++ "\n"],
              log := [],
              trace := ([] ++ [usersRequest]) ++ [inboxRequest "id-1"] }
    ∧ mainLoop refusingHost readyHelper 2 (-1)
          (State.start [⟨some 4, "4"⟩, ⟨some 2, "2"⟩, ⟨none, "Test"⟩, ⟨none, "Body"⟩,
            ⟨none, "a@example.com"⟩])
        = mainLoop refusingHost readyHelper 1 4
            { stdin := [],
              out := ([] ++ menuLines) ++ sendPrompt "    " (twoUsers.value.map toUsers)
                ++ mailQuestions "    " ++ ["\n", "\n"]
                ++ ["    " ++ "Error sending mail: " ++ "denied" ++ "\n"],
              log := [],
              trace := ([] ++ [usersRequest])
                ++ [sendMailRequest "id-2" (some "Test") (some "Body")
                      (some "a@example.com")] } :=
  ⟨(api_error_outcomes refusingHost readyHelper ⟨⟨⟨"set", "set", "set"⟩, defaultScopes⟩⟩
      ⟨"set", "set", "set"⟩ 0 (-1) (State.start [⟨some 1, "1"⟩]) rfl rfl).1
      "unauthorized" rfl rfl,
   (api_error_outcomes hostWithoutDirectory readyHelper ⟨⟨⟨"set", "set", "set"⟩, defaultScopes⟩⟩
      ⟨"set", "set", "set"⟩ 0 (-1) (State.start [⟨some 2, "2"⟩]) rfl rfl).2.1
      "forbidden" 2 rfl (Or.inl rfl) rfl,
   (api_error_outcomes refusingHost readyHelper ⟨⟨⟨"set", "set", "set"⟩, defaultScopes⟩⟩
      ⟨"set", "set", "set"⟩ 0 (-1) (State.start [⟨some 3, "3"⟩, ⟨some 1, "1"⟩]) rfl rfl).2.2.1
      "mailbox not found" (twoUsers.value.map toUsers)
      { stdin := [⟨some 1, "1"⟩], out := [] ++ menuLines, log := [],
        trace := [] ++ [usersRequest] }
      1 ⟨"id-1", "Ann", "ann@example.com"⟩ rfl rfl rfl (by decide) (by decide) rfl rfl,
   (api_error_outcomes refusingHost readyHelper ⟨⟨⟨"set", "set", "set"⟩, defaultScopes⟩⟩
      ⟨"set", "set", "set"⟩ 0 (-1)
      (State.start [⟨some 4, "4"⟩, ⟨some 2, "2"⟩, ⟨none, "Test"⟩, ⟨none, "Body"⟩,
        ⟨none, "a@example.com"⟩]) rfl rfl).2.2.2
      "denied" (twoUsers.value.map toUsers)
      { stdin := [⟨some 2, "2"⟩, ⟨none, "Test"⟩, ⟨none, "Body"⟩, ⟨none, "a@example.com"⟩],
        out := [] ++ menuLines, log := [], trace := [] ++ [usersRequest] }
      2 ⟨"id-2", "Bob", "NO EMAIL"⟩ rfl rfl rfl (by decide) (by decide) rfl rfl⟩

end GraphApp
